import Mathlib

/-!
Verification of the QA-pipeline backend (`backend/app`): a shallow embedding of
the pipeline orchestrator, its step tracker, the Pydantic data model, the
specialist agents and the Jira client, together with theorems settling the
spec's claims about them.

Conventions of the embedding:
* Python `str` is `String`; `None`-able values are `Option`;
  Python dictionaries produced by parsed LLM JSON are structures whose fields
  are all `Option` (a missing key is `none`, `dict.get k d` is `Option.getD`).
* A Python function that may raise is `Except String α`, the error carrying
  `str(e)`; callers that catch exceptions match on the `Except`.
* External calls (LLM HTTP, Jira REST, git, database) are inputs to the
  embedded functions: one `Except`/function parameter per awaited call, so a
  theorem quantifying over them covers every behaviour of the collaborators.
* Wall-clock timestamps are irrelevant to every claim; `time.time()` results
  are modelled by an abstract tick counter (`Nat`) where the source stores
  them, and the fields that only echo wall-clock durations are kept abstract.
-/

/-- Python's `"\n".join(lines)` (used by `GherkinScenario.to_gherkin_text` and
`AcceptanceCriteria.to_gherkin_text` via `"\n".join(lines)`). -/
def joinNL : List String → String
  | [] => ""
  | [l] => l
  | l :: ls => l ++ "\n" ++ joinNL ls

/-- The newline character. -/
def nlChar : Char := Char.ofNat 10

/-- The opening-brace character `U+007B` (written via `ofNat` throughout). -/
def lbrace : Char := Char.ofNat 123

/-- The closing-brace character `U+007D`. -/
def rbrace : Char := Char.ofNat 125

/-- The opening-bracket character. -/
def lbrack : Char := Char.ofNat 91

/-- The closing-bracket character. -/
def rbrack : Char := Char.ofNat 93

/-- The single-quote character `U+0027`. -/
def squote : Char := Char.ofNat 39

/-- The double-quote character `U+0022`. -/
def dquote : Char := Char.ofNat 34

/-!
## Step tracker — `backend/app/agents/orchestrator.py`, class `PipelineStep`

The Python class stores `name`, `description`, a string `status` (one of
`"pending"`, `"running"`, `"completed"`, `"failed"`, `"skipped"`),
`start_time`/`end_time` (set from `time.time()`, modelled as abstract `Nat`
ticks), an opaque `result` payload and an `error` string.  Each transition
method assigns the new status unconditionally.
-/

/-- Step-summary payloads (`step.complete({...})` receives small dicts of
telemetry; their contents are never read back by the pipeline; we keep the
key/value pairs as strings). -/
def StepPayload : Type := List (String × String)

instance : DecidableEq StepPayload := by
  unfold StepPayload
  infer_instance

/-- `PipelineStep.__init__` plus its mutable fields. -/
structure PipelineStep where
  name : String
  description : String
  status : String
  start_time : Option Nat
  end_time : Option Nat
  result : Option StepPayload
  error : Option String
deriving DecidableEq

/-- `PipelineStep(name, description)`: status starts at `"pending"`, the other
fields at `None`. -/
def PipelineStep.init (name description : String) : PipelineStep :=
  { name := name, description := description, status := "pending",
    start_time := none, end_time := none, result := none, error := none }

/-- `PipelineStep.start`: sets status `"running"` and the start tick. -/
def PipelineStep.start (s : PipelineStep) (now : Nat) : PipelineStep :=
  { s with status := "running", start_time := some now }

/-- `PipelineStep.complete(result)`: sets status `"completed"`, the end tick
and the result payload. -/
def PipelineStep.complete (s : PipelineStep) (now : Nat)
    (result : Option StepPayload) : PipelineStep :=
  { s with status := "completed", end_time := some now, result := result }

/-- `PipelineStep.fail(error)`: sets status `"failed"`, the end tick and the
error message. -/
def PipelineStep.fail (s : PipelineStep) (now : Nat) (error : String) :
    PipelineStep :=
  { s with status := "failed", end_time := some now, error := some error }

/-- `PipelineStep.skip(reason)`: sets status `"skipped"` and stores the reason
in `error`; no timestamps. -/
def PipelineStep.skip (s : PipelineStep) (reason : String) : PipelineStep :=
  { s with status := "skipped", error := some reason }

/-- `PipelineStep.duration`: `end - start` when both are set, else `0.0`.
(Python tests truthiness of the floats; a start tick of exactly `0` would be
falsy there — the tick abstraction ignores that, no claim touches it.) -/
def PipelineStep.duration (s : PipelineStep) : Nat :=
  match s.start_time, s.end_time with
  | some a, some b => b - a
  | _, _ => 0

/-- The dictionary `PipelineStep.to_dict` returns (note: the `result` payload
is not part of the snapshot). -/
structure StepDict where
  name : String
  description : String
  status : String
  duration_seconds : Nat
  error : Option String
deriving DecidableEq

/-- `PipelineStep.to_dict`. -/
def PipelineStep.to_dict (s : PipelineStep) : StepDict :=
  { name := s.name, description := s.description, status := s.status,
    duration_seconds := s.duration, error := s.error }

/-- A status is terminal when it is `completed`, `failed` or `skipped`. -/
def terminalStatus (st : String) : Prop :=
  st = "completed" ∨ st = "failed" ∨ st = "skipped"

instance (st : String) : Decidable (terminalStatus st) := by
  unfold terminalStatus
  infer_instance

/-!
## Data model — `backend/app/models/schemas.py`
-/

/-- `TestScenarioType` enum. -/
inductive TestScenarioType where
  | POSITIVE
  | NEGATIVE
  | EDGE_CASE
  | SECURITY
  | PERFORMANCE
  | DATA_DRIVEN
deriving DecidableEq

/-- `TestScenarioType.value` strings. -/
def TestScenarioType.value : TestScenarioType → String
  | .POSITIVE => "positive"
  | .NEGATIVE => "negative"
  | .EDGE_CASE => "edge_case"
  | .SECURITY => "security"
  | .PERFORMANCE => "performance"
  | .DATA_DRIVEN => "data-driven"

/-- `TestStep`. -/
structure TestStep where
  order : Nat
  action : String
  expected_result : String
  test_data : Option String
deriving DecidableEq

/-- `TestScenario`. -/
structure TestScenario where
  id : String
  title : String
  description : String
  type : TestScenarioType
  priority : String
  preconditions : List String
  steps : List TestStep
  acceptance_criteria_ref : String
  tags : List String
  estimated_duration_minutes : Nat
  playwright_code : Option String
deriving DecidableEq

/-- `TestSuite`, fields as declared (the datetime field `generated_at` is an
abstract tick). -/
structure TestSuite where
  story_key : String
  suite_name : String
  scenarios : List TestScenario
  total_scenarios : Nat
  positive_count : Nat
  negative_count : Nat
  edge_case_count : Nat
  generated_at : Nat
  llm_provider : String
deriving DecidableEq

/-- `TestSuite.model_post_init`: recomputes the four counts from the scenario
list, overwriting whatever the constructor received. -/
def TestSuite.model_post_init (t : TestSuite) : TestSuite :=
  { t with
    total_scenarios := t.scenarios.length,
    positive_count := (t.scenarios.filter
      (fun s => s.type = TestScenarioType.POSITIVE)).length,
    negative_count := (t.scenarios.filter
      (fun s => s.type = TestScenarioType.NEGATIVE)).length,
    edge_case_count := (t.scenarios.filter
      (fun s => s.type = TestScenarioType.EDGE_CASE)).length }

/-- Constructing a `TestSuite` in Pydantic runs `__init__` with the supplied
field values and then `model_post_init`; this is that composition. -/
def mkTestSuite (t : TestSuite) : TestSuite :=
  t.model_post_init

/-- `GherkinScenario`.  The Python field names are `given`, `when`, `then`;
`then` is a Lean keyword, so that field is `thenSteps` here.  `examples` is an
ordered dict of column name to (already stringified) column values. -/
structure GherkinScenario where
  id : String
  title : String
  given : List String
  when : List String
  thenSteps : List String
  tags : List String
  examples : Option (List (String × List String))
deriving DecidableEq

/-- The `Examples:` block of `GherkinScenario.to_gherkin_text` (emitted only
when `self.examples` is truthy, i.e. a non-empty dict).  Python's
`self.examples[h][i]` would raise on ragged columns; rows are read with a
default to keep the embedding total — no claim touches ragged examples. -/
def gherkinExamplesBlock (examples : List (String × List String)) :
    List String :=
  let headers := examples.map (fun p => p.1)
  let num_rows := match examples with
    | [] => 0
    | p :: _ => p.2.length
  ["", "  Examples:", "    | " ++ String.intercalate (" | ") headers ++ " |"] ++
    (List.range num_rows).map (fun i =>
      "    | " ++
        String.intercalate (" | ")
          (examples.map (fun p => (p.2.get? i).getD (""))) ++ " |")

/-- The line list built by `GherkinScenario.to_gherkin_text` before the final
`"\n".join`. -/
def GherkinScenario.lines (s : GherkinScenario) : List String :=
  (if s.tags ≠ [] then
      [String.intercalate (" ") (s.tags.map (fun t => "@" ++ t))]
    else []) ++
  ["Scenario: " ++ s.title] ++
  s.given.map (fun st => "  Given " ++ st) ++
  s.when.map (fun st => "  When " ++ st) ++
  s.thenSteps.map (fun st => "  Then " ++ st) ++
  (match s.examples with
   | some exs => if exs ≠ [] then gherkinExamplesBlock exs else []
   | none => [])

/-- `GherkinScenario.to_gherkin_text`. -/
def GherkinScenario.to_gherkin_text (s : GherkinScenario) : String :=
  joinNL s.lines

/-- `AcceptanceCriteria` (datetime again an abstract tick). -/
structure AcceptanceCriteria where
  story_key : String
  feature_name : String
  background : Option (List (String × List String))
  scenarios : List GherkinScenario
  generated_at : Nat
  llm_provider : String
deriving DecidableEq

/-- `JiraStory` — the normalized ticket shape shared by the Jira and Azure
DevOps clients (datetimes as abstract ticks; custom-field values as raw
strings). -/
structure JiraStory where
  id : String
  key : String
  summary : String
  description : Option String
  issue_type : String
  status : String
  project_key : String
  assignee : Option String
  reporter : Option String
  labels : List String
  components : List String
  priority : Option String
  created_at : Option Nat
  updated_at : Option Nat
  custom_fields : List (String × String)
deriving DecidableEq

/-!
## Specialist agents — `automation_engineer.py` and `code_reviewer.py`

`BaseAgent.run` forwards to `llm.generate_json` and re-raises any exception
(`agents/core.py`), so each agent method is a function of the outcome of that
one LLM call: `Except String d` where `d` is the parsed JSON dict.
-/

/-- The parsed JSON dict `generate_json` returns to
`AutomationEngineerAgent.generate_code` — only the `code` key is read, with
`result.get("code", "// Code generation failed")`. -/
structure CodeGenDict where
  code : Option String
deriving DecidableEq

/-- The steps text interpolated into the code-generation prompt and the error
placeholder: `"\n".join(f"- {step.action} (Expect: {step.expected_result})")`. -/
def scenarioStepsText (scenario : TestScenario) : String :=
  joinNL (scenario.steps.map (fun step =>
    "- " ++ step.action ++ " (Expect: " ++ step.expected_result ++ ")"))

/-- The fixed prefix of the placeholder `generate_code` returns on failure
(first line of the f-string in `automation_engineer.py`). -/
def codeGenErrorMarker : String := "// ⚠️ Code generation skipped due to API error"

/-- `AutomationEngineerAgent.generate_code`, as a function of the outcome of
the one awaited LLM call (`self.run(...)`): on success the `code` field with
its default, on any exception the placeholder string embedding `str(e)`. -/
def AutomationEngineerAgent.generate_code
    (llmOutcome : Except String CodeGenDict) (scenario : TestScenario) :
    String :=
  match llmOutcome with
  | .ok result => result.code.getD ("// Code generation failed")
  | .error e =>
      codeGenErrorMarker ++ "\n// Error: " ++ e ++
        "\n// \n// Please try again later or verify your API quotas.\n/*\nScenario: " ++
        scenario.title ++ "\n" ++ scenarioStepsText scenario ++ "\n*/"

/-- The parsed JSON dict a code review produces.  All keys are optional (the
LLM is merely asked to follow the schema); readers use `.get` with defaults. -/
structure ReviewDict where
  approved : Option Bool
  overall_score : Option Int
  scores : Option (List (String × Int))
  issues_found : Option (List String)
  improvements_applied : Option (List String)
  final_code : Option String
deriving DecidableEq

/-- Python `haystack.startswith(needle)`: a character-data prefix test. -/
def pyStartsWith (s p : String) : Bool :=
  p.data.isPrefixOf s.data

/-- The marker test at the top of `CodeReviewerAgent.review`:
`if not code or code.startswith("// ⚠️ Code generation skipped")`. -/
def reviewShortCircuits (code : String) : Bool :=
  code = "" || pyStartsWith code ("// ⚠️ Code generation skipped")

/-- `CodeReviewerAgent.review`, as a function of the outcome of its one LLM
call.  Placeholder or empty input short-circuits before the call; an LLM
exception degrades to passing the original code through. -/
def CodeReviewerAgent.review (llmOutcome : Except String ReviewDict)
    (_scenario : TestScenario) (code : String) : ReviewDict :=
  if reviewShortCircuits code then
    { approved := some false, overall_score := some 0, scores := some [],
      issues_found := some ["No code was generated"],
      improvements_applied := some [], final_code := some code }
  else
    match llmOutcome with
    | .ok result => result
    | .error e =>
        { approved := some true, overall_score := some 5, scores := some [],
          issues_found := some [("Review agent error: " ++ e)],
          improvements_applied := some [], final_code := some code }

/-!
## JSON recovery — `backend/app/llm/base.py`, `BaseLLMClient._parse_json_response`

The routine is a pure text pipeline around the standard library's
`json.loads`; `loads` is therefore a parameter (a strict parser returning
either a value or a decode-error message), and the three text passes are
embedded as executable string functions.
-/

/-- Python `str.strip()`: whitespace removed from both ends. -/
def pyStrip (cs : List Char) : List Char :=
  ((cs.dropWhile Char.isWhitespace).reverse.dropWhile
    Char.isWhitespace).reverse

/-- First pass of `_parse_json_response`: strip markdown code fences.
`text.strip()`, drop a leading ```` ```json ```` (7 chars, `text[7:]`) or
```` ``` ```` (3 chars), drop a trailing ```` ``` ```` (`text[:-3]`),
`strip()` again. -/
def stripCodeFences (text : String) : String :=
  let t := pyStrip text.data
  let t := if ("```json").data.isPrefixOf t then t.drop 7
           else if ("```").data.isPrefixOf t then t.drop 3
           else t
  let t := if ("```").data.isSuffixOf t then (t.reverse.drop 3).reverse
           else t
  String.mk (pyStrip t)

/-- Is this character a JSON opener `[` or `{`? (the character class
`[\[{]` of the regex). -/
def isOpenChar (c : Char) : Bool := c = lbrack || c = lbrace

/-- Is this character a JSON closer `]` or `}`? -/
def isCloseChar (c : Char) : Bool := c = rbrack || c = rbrace

/-- Second pass: `re.search(r'[\[{].*[\]}]', text, re.DOTALL)` with greedy
`.*` matches from the first opener to the last closer strictly after it; when
it matches, the text is replaced by that span, otherwise kept whole. -/
def restrictToJsonSpan (t : String) : String :=
  let cs := t.data
  match cs.findIdx? isOpenChar with
  | none => t
  | some i =>
    match cs.reverse.findIdx? isCloseChar with
    | none => t
    | some rj =>
      let j := cs.length - 1 - rj
      if i < j then String.mk ((cs.drop i).take (j - i + 1)) else t

/-- Half of the repair pass: `re.sub(r',\s*([}\]])', r'\1', text)` — every
comma followed by whitespace and a closer loses the comma and the
whitespace; scanning resumes after the closer.  Structural recursion on a
fuel bounded by the list length (each step consumes at least one
character, so the fuel never runs out). -/
def removeTrailingCommasGo : Nat → List Char → List Char
  | 0, cs => cs
  | _ + 1, [] => []
  | fuel + 1, c :: rest =>
    if c = ',' then
      match rest.dropWhile (fun d => d.isWhitespace) with
      | d :: rest2 =>
        if isCloseChar d then d :: removeTrailingCommasGo fuel rest2
        else c :: removeTrailingCommasGo fuel rest
      | [] => c :: removeTrailingCommasGo fuel rest
    else c :: removeTrailingCommasGo fuel rest

/-- The comma-removal scan at its natural fuel. -/
def removeTrailingCommas (cs : List Char) : List Char :=
  removeTrailingCommasGo cs.length cs

/-- The repair pass of `_parse_json_response`: trailing commas removed, then
`text.replace("'", '"')`. -/
def repairJsonText (t : String) : String :=
  String.mk ((removeTrailingCommas t.data).map
    (fun c => if c = squote then dquote else c))

/-- `BaseLLMClient._parse_json_response` over an abstract strict parser
`loads`: fences stripped, text restricted to the outermost span, strict
parse; only on failure the repair pass and a re-parse; if that fails too, a
`ValueError` whose message embeds the first decode error. -/
def BaseLLMClient.parse_json_response {J : Type}
    (loads : String → Except String J) (text : String) : Except String J :=
  let t := restrictToJsonSpan (stripCodeFences text)
  match loads t with
  | .ok v => .ok v
  | .error e =>
    match loads (repairJsonText t) with
    | .ok v => .ok v
    | .error _ => .error ("Failed to parse JSON response: " ++ e)

/-!
## Jira client — `backend/app/jira/client.py`, `JiraClient.get_issue`

`get_issue` is decorated with
`@retry(stop=stop_after_attempt(3), wait=wait_exponential(...))` from
tenacity.  tenacity's defaults retry on any exception and, once the stop
condition is reached, raise `RetryError` wrapping the last attempt
(`reraise` is left `False`).  The body catches `JIRAError` and re-raises by
status code.  The backend response is an input, indexed by attempt number.
-/

/-- The data of a `JIRAError` read by the handler. -/
structure JIRAErrorInfo where
  status_code : Nat
  text : String
deriving DecidableEq

/-- The raw issue payload fields `get_issue` reads (nested attribute
accesses such as `fields.issuetype.name` are pre-flattened to the string the
code extracts; dates are abstract ticks). -/
structure JiraIssueRaw where
  id : String
  key : String
  summary : Option String
  description : Option String
  issuetype_name : Option String
  status_name : Option String
  project_key : Option String
  assignee_displayName : Option String
  reporter_displayName : Option String
  labels : Option (List String)
  component_names : Option (List String)
  priority_name : Option String
  created : Option Nat
  updated : Option Nat
  all_fields : List (String × Option String)
deriving DecidableEq

/-- The success path of `get_issue`: normalization of the raw issue into
`JiraStory`, defaults as in the source (`fields.summary or ""`, `"Unknown"`
for missing types, custom fields kept when the id starts with
`customfield_` and the value is not `None`). -/
def buildJiraStory (issue : JiraIssueRaw) : JiraStory :=
  { id := issue.id
    key := issue.key
    summary := issue.summary.getD ("")
    description := some (issue.description.getD (""))
    issue_type := issue.issuetype_name.getD ("Unknown")
    status := issue.status_name.getD ("Unknown")
    project_key := issue.project_key.getD ("")
    assignee := issue.assignee_displayName
    reporter := issue.reporter_displayName
    labels := issue.labels.getD []
    components := issue.component_names.getD []
    priority := issue.priority_name
    created_at := issue.created
    updated_at := issue.updated
    custom_fields := issue.all_fields.filterMap (fun p =>
      if p.1.startsWith ("customfield_") then
        match p.2 with
        | some v => some (p.1, v)
        | none => none
      else none) }

/-- Python exception classes raised by the `get_issue` body. -/
inductive PyError where
  | valueError (msg : String)
  | permissionError (msg : String)
  | runtimeError (msg : String)
deriving DecidableEq

/-- What a caller of a tenacity-decorated function can catch: either a raw
exception (only possible with `reraise=True`) or tenacity's `RetryError`
wrapping the last failed attempt. -/
inductive CallerError where
  | raw (e : PyError)
  | retryError (last : PyError)
deriving DecidableEq

/-- One attempt of `get_issue`: the try/except body.  `backendResult` is the
outcome of the `self.jira.issue(...)` call for this attempt. -/
def JiraClient.get_issue_attempt
    (backendResult : Except JIRAErrorInfo JiraIssueRaw) (issue_id : String) :
    Except PyError JiraStory :=
  match backendResult with
  | .ok issue => .ok (buildJiraStory issue)
  | .error e =>
    if e.status_code = 404 then
      .error (.valueError ("Issue " ++ issue_id ++ " not found"))
    else if e.status_code = 403 then
      .error (.permissionError ("Access denied to issue " ++ issue_id))
    else
      .error (.runtimeError ("Failed to fetch issue: " ++ e.text))

/-- tenacity's `retry(stop=stop_after_attempt(3))` with default `retry`
predicate (any exception) and default `reraise=False`: up to three attempts,
first success wins, otherwise `RetryError` around the last attempt's
exception.  The exponential wait only sleeps and is invisible here. -/
def tenacityRetry3 {α : Type} (f : Nat → Except PyError α) :
    Except CallerError α :=
  match f 1 with
  | .ok a => .ok a
  | .error _ =>
    match f 2 with
    | .ok a => .ok a
    | .error _ =>
      match f 3 with
      | .ok a => .ok a
      | .error e3 => .error (.retryError e3)

/-- `JiraClient.get_issue` as the caller sees it: the decorated function.
`backend n` is the ticketing system's response to the `n`-th attempt. -/
def JiraClient.get_issue (backend : Nat → Except JIRAErrorInfo JiraIssueRaw)
    (issue_id : String) : Except CallerError JiraStory :=
  tenacityRetry3 (fun n => JiraClient.get_issue_attempt (backend n) issue_id)

/-!
## Code-review fan-out — `orchestrator.py`, STEP 4 of
`OrchestratorAgent.run_full_agentic_pipeline`

One review task per scenario whose `playwright_code` is truthy and does not
start with `"// ⚠️"`, joined with `asyncio.gather(..., return_exceptions=True)`
— so `reviews` is a list, positionally matching the eligible scenarios, of
either a parsed review dict or a captured exception.  The apply loop then
walks all scenarios with a running index into `reviews`.
-/

/-- The fan-out filter:
`scenario.playwright_code and not scenario.playwright_code.startswith("// ⚠️")`. -/
def reviewEligible (s : TestScenario) : Bool :=
  match s.playwright_code with
  | some c => c ≠ "" && !(pyStartsWith c ("// ⚠️"))
  | none => false

/-- One entry of `code_reviews_summary`. -/
structure ReviewSummary where
  scenario_id : String
  title : String
  approved : Bool
  score : Int
  issues : List String
  improvements : List String
deriving DecidableEq

/-- The summary dict appended for a successful review (`review.get` with the
defaults of the source). -/
def mkReviewSummary (s : TestScenario) (r : ReviewDict) : ReviewSummary :=
  { scenario_id := s.id, title := s.title,
    approved := r.approved.getD true,
    score := r.overall_score.getD 0,
    issues := r.issues_found.getD [],
    improvements := r.improvements_applied.getD [] }

/-- The in-place code replacement for one successfully reviewed scenario:
`final_code = review.get("final_code", scenario.playwright_code)` followed by
`if final_code: scenario.playwright_code = final_code`. -/
def applyReviewedCode (s : TestScenario) (r : ReviewDict) : TestScenario :=
  let final_code : Option String :=
    match r.final_code with
    | some fc => some fc
    | none => s.playwright_code
  match final_code with
  | some fc => if fc ≠ "" then { s with playwright_code := some fc } else s
  | none => s

/-- The apply loop of STEP 4: walks every scenario; for an eligible one it
consults `reviews[review_idx]` (when the index is in range and the entry is
not an exception) and advances `review_idx`; non-eligible scenarios are left
untouched.  Returns the updated scenario list and `code_reviews_summary`. -/
def applyReviewsLoop (reviews : List (Except String ReviewDict)) :
    List TestScenario → Nat → List TestScenario × List ReviewSummary
  | [], _ => ([], [])
  | s :: rest, idx =>
    if reviewEligible s then
      let out :=
        match reviews.get? idx with
        | some (.ok r) => (applyReviewedCode s r, some (mkReviewSummary s r))
        | some (.error _) => (s, (none : Option ReviewSummary))
        | none => (s, none)
      let tail := applyReviewsLoop reviews rest (idx + 1)
      (out.1 :: tail.1,
        match out.2 with
        | some e => e :: tail.2
        | none => tail.2)
    else
      let tail := applyReviewsLoop reviews rest idx
      (s :: tail.1, tail.2)

/-- The whole STEP-4 join-and-apply, with `reviews` as delivered by the
gather (the loop starts at `review_idx = 0`). -/
def codeReviewStage (reviews : List (Except String ReviewDict))
    (scenarios : List TestScenario) :
    List TestScenario × List ReviewSummary :=
  applyReviewsLoop reviews scenarios 0

/-- Specification form of the scenario-list output: the reviews list is
consumed one entry per eligible scenario, an exception entry (or a missing
one) leaves the scenario untouched. -/
def applyReviewsSpec :
    List TestScenario → List (Except String ReviewDict) → List TestScenario
  | [], _ => []
  | s :: rest, outs =>
    if reviewEligible s then
      match outs with
      | (.ok r) :: outs2 => applyReviewedCode s r :: applyReviewsSpec rest outs2
      | (.error _) :: outs2 => s :: applyReviewsSpec rest outs2
      | [] => s :: applyReviewsSpec rest []
    else
      s :: applyReviewsSpec rest outs

/-- Specification form of `code_reviews_summary`: one entry per eligible
scenario whose gathered outcome is a dict, in order. -/
def reviewSummariesSpec (scenarios : List TestScenario)
    (outs : List (Except String ReviewDict)) : List ReviewSummary :=
  ((scenarios.filter reviewEligible).zip outs).filterMap (fun p =>
    match p.2 with
    | .ok r => some (mkReviewSummary p.1 r)
    | .error _ => none)

/-!
## The pipeline — `OrchestratorAgent.run_full_agentic_pipeline`

The orchestrator's awaited external calls are the fields of `PipelineEnv`;
the per-run options and the relevant settings are `OrchestratorConfig`.  The
body (the `try` block) returns the steps created so far, the partially
filled `pipeline_result`, and the exception message if one was raised; the
`except`/`finally` suffix is `run_full_agentic_pipeline` itself.
-/

/-- Python `str.isdigit` restricted to ASCII digits (the ids in play are
ASCII). -/
def pyIsDigit (s : String) : Bool := s ≠ "" && s.data.all Char.isDigit

/-- STEP 1's backend classification:
`issue_id.isdigit() or issue_id.startswith("ADO-")`. -/
def isADO (issue_id : String) : Bool :=
  pyIsDigit issue_id || pyStartsWith issue_id ("ADO-")

/-- Result dict of `gitops.write_test_files`. -/
structure WriteFilesResult where
  files_created : List String
  directory : String
deriving DecidableEq

/-- Result dict of `gitops.git_commit_and_push`. -/
structure GitPushResult where
  success : Bool
  branch : Option String
  commit_hash : Option String
  error : Option String
deriving DecidableEq

/-- `pipeline_result["git_result"]`: the push dict when the push ran, the
write dict in the skip branch. -/
inductive GitResultField where
  | push (g : GitPushResult)
  | write (w : WriteFilesResult)
deriving DecidableEq

/-- The fields of `GenerateAcceptanceCriteriaResponse` the pipeline reads. -/
structure ACResponse where
  acceptance_criteria : AcceptanceCriteria
  gherkin_text : String
deriving DecidableEq

/-- The fields of `JiraPublishResponse` the pipeline reads. -/
structure JiraPublishResult where
  success : Bool
  acceptance_criteria_published : Bool
  created_subtasks : List (String × String)
deriving DecidableEq

/-- `pipeline_result["jira_publish_result"]`: either the Azure DevOps dict
`{"success": ..., "platform": "Azure DevOps"}` or the encoded
`JiraPublishResponse`. -/
inductive PublishResultField where
  | ado (success : Bool)
  | jira (r : JiraPublishResult)
deriving DecidableEq

/-- Outcomes of the orchestrator's awaited external calls.  `reviewOutcome`
is the gathered result of `reviewer.review` for an eligible scenario
(`.error` = the exception `asyncio.gather` captured). -/
structure PipelineEnv where
  fetchStoryADO : Except String JiraStory
  fetchStoryJira : Except String JiraStory
  generateAC : Except String ACResponse
  generateTests : Except String TestSuite
  reviewOutcome : TestScenario → Except String ReviewDict
  writeTestFiles : Except String WriteFilesResult
  gitCommitAndPush : Except String GitPushResult
  publishADO : Except String Bool
  publishJira : Except String JiraPublishResult

/-- The run options of `run_full_agentic_pipeline` plus the one setting the
body reads (`getattr(settings, 'git_repo_url', None)`). -/
structure OrchestratorConfig where
  issue_id : String
  user_id : String
  auto_publish : Bool
  auto_push_git : Bool
  git_repo_url : Option String
  llm_provider : String
deriving DecidableEq

/-- The `pipeline_result` dict (the fields the claims read; the constant
bookkeeping entries `pipeline_type`, `agents_used` and the wall-clock
`started_at`/`completed_at`/`total_processing_time_seconds` are outside the
model).  Note `test_suite` is the STEP-3 encoding — a snapshot taken before
the review loop mutates the scenario objects. -/
structure PipelineResult where
  success : Bool
  issue_id : String
  user_id : String
  llm_provider : String
  story : Option JiraStory
  acceptance_criteria : Option AcceptanceCriteria
  gherkin_text : Option String
  test_suite : Option TestSuite
  code_reviews : List ReviewSummary
  git_result : Option GitResultField
  jira_publish_result : Option PublishResultField
  steps : List StepDict
deriving DecidableEq

/-- The dict as initialized at the top of `run_full_agentic_pipeline`. -/
def initPipelineResult (cfg : OrchestratorConfig) : PipelineResult :=
  { success := false, issue_id := cfg.issue_id, user_id := cfg.user_id,
    llm_provider := cfg.llm_provider, story := none,
    acceptance_criteria := none, gherkin_text := none, test_suite := none,
    code_reviews := [], git_result := none, jira_publish_result := none,
    steps := [] }

/-- What the `try` block leaves behind: the `self.steps` list as built, the
partially filled result, and the message of a raised exception, if any. -/
structure BodyOut where
  steps : List PipelineStep
  result : PipelineResult
  err : Option String
deriving DecidableEq

/-- The `except` handler: walk `reversed(self.steps)` and mark the first step
with status `"running"` as failed with `str(e)` (reverse-order scan over the
reversed list). -/
def failFirstRunningRev (e : String) : List PipelineStep → List PipelineStep
  | [] => []
  | s :: rest =>
    if s.status = "running" then s.fail 0 e :: rest
    else s :: failFirstRunningRev e rest

/-- `for step in reversed(self.steps): if step.status == "running":
step.fail(str(e)); break` — as a transformation of the steps list. -/
def failFirstRunning (steps : List PipelineStep) (e : String) :
    List PipelineStep :=
  (failFirstRunningRev e steps.reverse).reverse

/-- STEP 7 (`if auto_publish`) and the `pipeline_result["success"] = True`
finalizer — the tail of the `try` block shared by both STEP-6 branches.
`steps6` is `self.steps` after STEP 6; `r5` the result filled so far. -/
def pipelineTail (env : PipelineEnv) (cfg : OrchestratorConfig)
    (is_ado : Bool) (platform_name : String)
    (steps6 : List PipelineStep) (r5 : PipelineResult) : BodyOut :=
  if cfg.auto_publish then
    let step7 := (PipelineStep.init ("publish_results")
      ("Publishing to " ++ platform_name)).start 0
    if is_ado then
      match env.publishADO with
      | .error e => { steps := steps6 ++ [step7], result := r5, err := some e }
      | .ok publish_success =>
        let r6 := { r5 with
          jira_publish_result := some (.ado publish_success) }
        let step7 := step7.complete 0 (some
          [("published", toString publish_success)])
        { steps := steps6 ++ [step7], result := r6, err := none }
    else
      match env.publishJira with
      | .error e => { steps := steps6 ++ [step7], result := r5, err := some e }
      | .ok publish_result =>
        let r6 := { r5 with
          jira_publish_result := some (.jira publish_result) }
        let step7 := step7.complete 0 (some
          [("ac_published",
              toString publish_result.acceptance_criteria_published),
           ("subtasks_created",
              toString publish_result.created_subtasks.length)])
        { steps := steps6 ++ [step7], result := r6, err := none }
  else
    { steps := steps6, result := r5, err := none }

/-- The `try` block of `run_full_agentic_pipeline`, stage by stage.  Ticks
passed to the step tracker are all `0` (wall-clock abstraction). -/
def pipelineBody (env : PipelineEnv) (cfg : OrchestratorConfig) : BodyOut :=
  let is_ado := isADO cfg.issue_id
  let platform_name := if is_ado then ("Azure DevOps") else ("Jira")
  let r0 := initPipelineResult cfg
  -- STEP 1: fetch story (Jira or Azure DevOps)
  let step1 := (PipelineStep.init ("fetch_story")
    ("Fetching user story from " ++ platform_name)).start 0
  match if is_ado then env.fetchStoryADO else env.fetchStoryJira with
  | .error e => { steps := [step1], result := r0, err := some e }
  | .ok story =>
  let r1 := { r0 with story := some story }
  let step1 := step1.complete 0 (some [("key", story.key),
    ("summary", story.summary), ("platform", platform_name)])
  -- STEP 2: generate acceptance criteria
  let step2 := (PipelineStep.init ("generate_ac")
    ("Generating acceptance criteria (Gherkin)")).start 0
  match env.generateAC with
  | .error e => { steps := [step1, step2], result := r1, err := some e }
  | .ok ac_response =>
  let acceptance_criteria := ac_response.acceptance_criteria
  let r2 := { r1 with
    acceptance_criteria := some acceptance_criteria,
    gherkin_text := some ac_response.gherkin_text }
  let step2 := step2.complete 0 (some
    [("scenarios_count", toString acceptance_criteria.scenarios.length),
     ("feature", acceptance_criteria.feature_name)])
  -- STEP 3: generate test scenarios + Playwright code
  let step3 := (PipelineStep.init ("generate_tests")
    "Generating test scenarios + Playwright code").start 0
  match env.generateTests with
  | .error e => { steps := [step1, step2, step3], result := r2, err := some e }
  | .ok test_suite =>
  let r3 := { r2 with test_suite := some test_suite }
  let step3 := step3.complete 0 (some
    [("total_scenarios", toString test_suite.total_scenarios),
     ("positive", toString test_suite.positive_count),
     ("negative", toString test_suite.negative_count)])
  -- STEP 4: code review fan-out (gather captures per-task exceptions, the
  -- stage itself cannot raise)
  let step4 := (PipelineStep.init ("code_review")
    "AI Code Review (CodeReviewer Agent)").start 0
  let reviews := (test_suite.scenarios.filter reviewEligible).map
    env.reviewOutcome
  -- (the updated scenario objects `reviewed.1` feed only the abstracted
  -- write/publish calls; the encoded `test_suite` in the result is the
  -- STEP-3 snapshot)
  let reviewed := codeReviewStage reviews test_suite.scenarios
  let code_reviews_summary := reviewed.2
  let r4 := { r3 with code_reviews := code_reviews_summary }
  let step4 := step4.complete 0 (some
    [("reviews_completed", toString code_reviews_summary.length)])
  -- STEP 5: write test files
  let step5 := (PipelineStep.init ("gitops_write")
    "Writing test files (GitOps Agent)").start 0
  match env.writeTestFiles with
  | .error e =>
      { steps := [step1, step2, step3, step4, step5], result := r4,
        err := some e }
  | .ok write_result =>
  let step5 := step5.complete 0 (some
    [("files_created", toString write_result.files_created.length),
     ("directory", write_result.directory)])
  -- STEP 6: git commit & push, or skip
  if cfg.auto_push_git && cfg.git_repo_url.isSome then
    let step6 := (PipelineStep.init ("gitops_push")
      "Git commit & push (GitOps Agent)").start 0
    match env.gitCommitAndPush with
    | .error e =>
        { steps := [step1, step2, step3, step4, step5, step6], result := r4,
          err := some e }
    | .ok git_result =>
    let r5 := { r4 with git_result := some (.push git_result) }
    let step6 :=
      if git_result.success then
        step6.complete 0 (some
          [("branch", git_result.branch.getD ("")),
           ("commit", (git_result.commit_hash.getD ("")).take 8)])
      else
        step6.fail 0 (git_result.error.getD ("Unknown error"))
    pipelineTail env cfg is_ado platform_name
      [step1, step2, step3, step4, step5, step6] r5
  else
    let step6 := (PipelineStep.init ("gitops_push")
      ("Git push (skipped)")).skip
        ("No GIT_REPO_URL configured or auto_push_git=False")
    let r5 := { r4 with git_result := some (.write write_result) }
    pipelineTail env cfg is_ado platform_name
      [step1, step2, step3, step4, step5, step6] r5

/-- The `GenerationHistory` row built by
`OrchestratorAgent._save_pipeline_history` (the `finally` block's database
write; its own exceptions are logged and swallowed, so the row below is what
reaches the store whenever the store accepts it). -/
structure GenerationHistoryRow where
  user_id : String
  jira_issue_key : String
  jira_issue_summary : String
  llm_provider : String
  acceptance_criteria_json : Option AcceptanceCriteria
  gherkin_text : String
  test_scenarios_json : Option TestSuite
  acceptance_criteria_count : Nat
  test_scenarios_count : Nat
  published_to_jira : Bool
deriving DecidableEq

/-- `_save_pipeline_history`: projections of the final `pipeline_result`
with the source's defaults. -/
def savePipelineHistory (r : PipelineResult) : GenerationHistoryRow :=
  { user_id := r.user_id
    jira_issue_key := r.issue_id
    jira_issue_summary := match r.story with
      | some s => s.summary
      | none => ""
    llm_provider := r.llm_provider
    acceptance_criteria_json := r.acceptance_criteria
    gherkin_text := r.gherkin_text.getD ("")
    test_scenarios_json := r.test_suite
    acceptance_criteria_count := match r.acceptance_criteria with
      | some ac => ac.scenarios.length
      | none => 0
    test_scenarios_count := match r.test_suite with
      | some ts => ts.scenarios.length
      | none => 0
    published_to_jira := match r.jira_publish_result with
      | some (.ado b) => b
      | some (.jira pr) => pr.success
      | none => false }

/-- A finished run: the returned `pipeline_result` and the history row the
`finally` block hands to the store. -/
structure PipelineRun where
  result : PipelineResult
  savedHistory : GenerationHistoryRow
deriving DecidableEq

/-- `OrchestratorAgent.run_full_agentic_pipeline`: the `try` body, then the
`except` handler (mark the first running step failed), then the `finally`
block (snapshot the steps into the result, persist history) — and a normal
return either way. -/
def OrchestratorAgent.run_full_agentic_pipeline (env : PipelineEnv)
    (cfg : OrchestratorConfig) : PipelineRun :=
  let b := pipelineBody env cfg
  let steps := match b.err with
    | some e => failFirstRunning b.steps e
    | none => b.steps
  let result := { b.result with
    success := b.err.isNone,
    steps := steps.map PipelineStep.to_dict }
  { result := result, savedHistory := savePipelineHistory result }

/-- The stage order of the orchestrator: every run's step list is a prefix
of this name sequence. -/
def canonicalStepNames : List String :=
  ["fetch_story", "generate_ac", "generate_tests", "code_review",
   "gitops_write", "gitops_push", "publish_results"]

/-!
## Gherkin line-level parsing helpers (for the round-trip claim)

`to_gherkin_text` joins its lines with `"\n"`; these helpers split the
rendered character stream back into lines and segment them by step keyword,
so that recoverability of the step lists is a theorem about an executable
inverse.
-/

/-- Split a character stream at newline characters (inverse of the
`"\n".join`). -/
def splitOnNL (cs : List Char) : List (List Char) :=
  match cs with
  | [] => [[]]
  | c :: rest =>
    let tail := splitOnNL rest
    if c = nlChar then [] :: tail
    else
      match tail with
      | h :: t => (c :: h) :: t
      | [] => [[c]]

/-- Does the character list start with the given marker string? -/
def hasMarker (marker : String) (cs : List Char) : Bool :=
  marker.data.isPrefixOf cs

/-- Recover the ordered `given`/`when`/`then` step lists from the line list
of a rendered scenario: take the maximal run of lines carrying each step
marker, in order, and strip the marker. -/
def parseStepLines (lines : List (List Char)) :
    List String × List String × List String :=
  let isG := hasMarker "  Given "
  let isW := hasMarker "  When "
  let isT := hasMarker "  Then "
  let g := lines.takeWhile isG
  let rest := lines.dropWhile isG
  let w := rest.takeWhile isW
  let rest2 := rest.dropWhile isW
  let t := rest2.takeWhile isT
  (g.map (fun l => String.mk (l.drop 8)),
   w.map (fun l => String.mk (l.drop 7)),
   t.map (fun l => String.mk (l.drop 7)))

/-- Drop the tag line (if tags were rendered) and the `Scenario:` line, then
recover the step lists: the conceptual re-parser for a rendered scenario
without an examples block. -/
def parseGherkinScenarioSteps (hasTags : Bool) (text : String) :
    List String × List String × List String :=
  parseStepLines ((splitOnNL text.data).drop (if hasTags then 2 else 1))

/-- A string contains no newline character. -/
def nlFree (s : String) : Prop := nlChar ∉ s.data

instance (s : String) : Decidable (nlFree s) := by
  unfold nlFree
  infer_instance

/-!
# Theorems

Shared helper lemmas first, then one theorem per claim (with witness or
counterexample theorems where required).
-/

/-- A list is a Boolean prefix of itself followed by anything. -/
theorem isPrefixOf_append_self {α : Type} [DecidableEq α] (p t : List α) :
    p.isPrefixOf (p ++ t) = true := by
  induction p with
  | nil => simp [List.isPrefixOf]
  | cons a r ih => simp [List.isPrefixOf, ih]

/-- String equality is character-data equality. -/
theorem string_eq_of_data_eq (a b : String) (h : a.data = b.data) : a = b := by
  cases a
  cases b
  simp only at h
  rw [h]

/-- Appending strings concatenates the data. -/
theorem data_append_eq (a b : String) : (a ++ b).data = a.data ++ b.data := by
  cases a
  cases b
  rfl

/-- String append is associative. -/
theorem string_append_assoc (a b c : String) :
    (a ++ b) ++ c = a ++ (b ++ c) := by
  apply string_eq_of_data_eq
  simp [data_append_eq]

/-- C2 is false on the code: a concrete `PipelineStep` in the terminal
status `"completed"` changes to `"failed"` when `fail()` is subsequently
called — terminal states are not enforced by the class. -/
theorem C2_terminality_counterexample :
    terminalStatus (((PipelineStep.init ("s") ("d")).complete 0 none).status)
    ∧ ((((PipelineStep.init ("s") ("d")).complete 0 none).fail 0
          ("boom")).status
        ≠ ((PipelineStep.init ("s") ("d")).complete 0 none).status) := by
  constructor
  · decide
  · decide

/-- C2 amended: each `PipelineStep` transition method assigns its status
unconditionally, whatever the previous status (terminal or not) — so a call
after a terminal state does change the status; finality holds only because
the orchestrator never makes such a call (its handler fails only steps whose
status is `"running"`). -/
theorem C2_terminality_amended (s : PipelineStep) (t t2 t3 : Nat)
    (r : Option StepPayload) (e reason : String) :
    (s.start t).status = "running"
    ∧ (s.complete t2 r).status = "completed"
    ∧ (s.fail t3 e).status = "failed"
    ∧ (s.skip reason).status = "skipped" := by
  refine ⟨rfl, rfl, rfl, rfl⟩

/-- C4: `TestSuite` construction (Pydantic `__init__` + `model_post_init`)
recomputes `total_scenarios`, `positive_count`, `negative_count` and
`edge_case_count` from the scenario list, and the constructor-supplied count
values are overwritten: two constructions differing only in the supplied
counts yield the same suite. -/
theorem C4_testsuite_counts (t : TestSuite) :
    (mkTestSuite t).total_scenarios = t.scenarios.length
    ∧ (mkTestSuite t).positive_count
        = (t.scenarios.filter
            (fun s => s.type = TestScenarioType.POSITIVE)).length
    ∧ (mkTestSuite t).negative_count
        = (t.scenarios.filter
            (fun s => s.type = TestScenarioType.NEGATIVE)).length
    ∧ (mkTestSuite t).edge_case_count
        = (t.scenarios.filter
            (fun s => s.type = TestScenarioType.EDGE_CASE)).length
    ∧ (mkTestSuite t).scenarios = t.scenarios
    ∧ ∀ a b c d : Nat,
        mkTestSuite { t with total_scenarios := a, positive_count := b,
                             negative_count := c, edge_case_count := d }
          = mkTestSuite t := by
  refine ⟨rfl, rfl, rfl, rfl, rfl, ?_⟩
  intro a b c d
  rfl

/-- Boolean prefix test unfolded to an existential. -/
theorem isPrefixOf_iff_exists {α : Type} [DecidableEq α] (p l : List α) :
    p.isPrefixOf l = true ↔ ∃ t, p ++ t = l := by
  induction p generalizing l with
  | nil => simp [List.isPrefixOf]
  | cons a p2 ih =>
    cases l with
    | nil => simp [List.isPrefixOf]
    | cons b l2 =>
      simp only [List.isPrefixOf, Bool.and_eq_true, beq_iff_eq, ih,
        List.cons_append, List.cons.injEq]
      constructor
      · rintro ⟨hab, t, ht⟩
        exact ⟨t, hab, ht⟩
      · rintro ⟨t, hab, ht⟩
        exact ⟨hab, t, ht⟩

/-- C5: when the code-generation LLM call raises, `generate_code` returns
(it cannot propagate) a placeholder that starts with the fixed error marker
and embeds the error text; and for every input code that is empty or starts
with that marker, `CodeReviewerAgent.review` returns overall score `0` and
`approved = False` without consulting the LLM — the outcome of the LLM call
is irrelevant to the result. -/
theorem C5_codegen_placeholder_and_review_short_circuit
    (e : String) (scenario sc2 : TestScenario) (code : String)
    (o o1 o2 : Except String ReviewDict)
    (h : code = "" ∨ pyStartsWith code codeGenErrorMarker = true) :
    pyStartsWith (AutomationEngineerAgent.generate_code (Except.error e)
        scenario) codeGenErrorMarker = true
    ∧ (∃ a b : String,
        AutomationEngineerAgent.generate_code (Except.error e) scenario
          = a ++ e ++ b)
    ∧ (CodeReviewerAgent.review o sc2 code).overall_score = some 0
    ∧ (CodeReviewerAgent.review o sc2 code).approved = some false
    ∧ CodeReviewerAgent.review o1 sc2 code
        = CodeReviewerAgent.review o2 sc2 code := by
  have hsplit : codeGenErrorMarker
      = ("// ⚠️ Code generation skipped") ++ (" due to API error") := by
    rfl
  have hshort : reviewShortCircuits code = true := by
    rcases h with h | h
    · simp [reviewShortCircuits, h]
    · have hp : pyStartsWith code ("// ⚠️ Code generation skipped") = true := by
        unfold pyStartsWith at h ⊢
        rw [isPrefixOf_iff_exists] at h ⊢
        obtain ⟨t, ht⟩ := h
        refine ⟨(" due to API error").data ++ t, ?_⟩
        rw [← ht, hsplit, data_append_eq, List.append_assoc]
      simp [reviewShortCircuits, hp]
  have hgc : AutomationEngineerAgent.generate_code (Except.error e) scenario
      = codeGenErrorMarker ++ ("\n// Error: " ++ (e ++
          ("\n// \n// Please try again later or verify your API quotas.\n/*\nScenario: "
            ++ (scenario.title ++ ("\n" ++ (scenarioStepsText scenario ++
              "\n*/")))))) := by
    simp [AutomationEngineerAgent.generate_code, string_append_assoc]
  refine ⟨?_, ?_, ?_, ?_, ?_⟩
  · rw [pyStartsWith, hgc, data_append_eq, isPrefixOf_iff_exists]
    exact ⟨_, rfl⟩
  · refine ⟨codeGenErrorMarker ++ "\n// Error: ",
      "\n// \n// Please try again later or verify your API quotas.\n/*\nScenario: "
        ++ (scenario.title ++ ("\n" ++ (scenarioStepsText scenario ++
          "\n*/"))), ?_⟩
    rw [hgc]
    simp [string_append_assoc]
  · simp [CodeReviewerAgent.review, hshort]
  · simp [CodeReviewerAgent.review, hshort]
  · simp [CodeReviewerAgent.review, hshort]

/-- C5 witness: concrete instantiation — a quota error produces a
marker-prefixed placeholder, and reviewing empty code reports score `0`,
not approved. -/
theorem C5_witness :
    pyStartsWith (AutomationEngineerAgent.generate_code
        (Except.error ("429 quota exceeded"))
        ⟨"TS-002", "Login test", "d", TestScenarioType.POSITIVE, "Medium",
          [], [], "AC-1", [], 5, none⟩) codeGenErrorMarker = true
    ∧ (CodeReviewerAgent.review
        (Except.ok ⟨some true, some 9, some [], some [], some [], some ("x")⟩)
        ⟨"TS-002", "Login test", "d", TestScenarioType.POSITIVE, "Medium",
          [], [], "AC-1", [], 5, none⟩ "").overall_score = some 0 := by
  have h := C5_codegen_placeholder_and_review_short_circuit
    ("429 quota exceeded")
    ⟨"TS-002", "Login test", "d", TestScenarioType.POSITIVE, "Medium",
      [], [], "AC-1", [], 5, none⟩
    ⟨"TS-002", "Login test", "d", TestScenarioType.POSITIVE, "Medium",
      [], [], "AC-1", [], 5, none⟩
    ""
    (Except.ok ⟨some true, some 9, some [], some [], some [], some ("x")⟩)
    (Except.ok ⟨some true, some 9, some [], some [], some [], some ("x")⟩)
    (Except.ok ⟨some true, some 9, some [], some [], some [], some ("x")⟩)
    (Or.inl rfl)
  exact ⟨h.1, h.2.2.1⟩

/-- C6: for valid (non-placeholder, non-empty) input code, an LLM failure
inside `CodeReviewerAgent.review` is not propagated: the result passes the
original code through unchanged as `final_code`, defaults `approved` to
`True`, and records the failure in `issues_found`. -/
theorem C6_review_failure_passthrough (e : String) (sc : TestScenario)
    (code : String) (h : reviewShortCircuits code = false) :
    CodeReviewerAgent.review (Except.error e) sc code
      = { approved := some true, overall_score := some 5, scores := some [],
          issues_found := some [("Review agent error: " ++ e)],
          improvements_applied := some [], final_code := some code } := by
  simp [CodeReviewerAgent.review, h]

/-- C6 witness: a concrete provider timeout on a concrete code string. -/
theorem C6_witness :
    CodeReviewerAgent.review (Except.error ("timeout"))
      ⟨"TS-001", "t", "d", TestScenarioType.POSITIVE, "Medium",
        [], [], "AC-1", [], 5, none⟩
      ("await expect(page).toHaveURL(url);")
      = { approved := some true, overall_score := some 5, scores := some [],
          issues_found := some [("Review agent error: timeout")],
          improvements_applied := some [],
          final_code := some ("await expect(page).toHaveURL(url);") } :=
  C6_review_failure_passthrough ("timeout")
    ⟨"TS-001", "t", "d", TestScenarioType.POSITIVE, "Medium",
      [], [], "AC-1", [], 5, none⟩
    ("await expect(page).toHaveURL(url);") (by decide)

/-- C7: `_parse_json_response` (the JSON-recovery routine behind
`generate_json`) first strips code fences, then restricts to the outermost
bracket/brace span, then tries the strict parse; only when the strict parse
fails does it run the repair pass (trailing-comma removal, quote
normalization) and re-parse; when that fails too it raises a `ValueError`
embedding the decode error instead of returning a value. -/
theorem C7_parse_json_staging {J : Type} (loads : String → Except String J)
    (text : String) :
    (∀ v, loads (restrictToJsonSpan (stripCodeFences text)) = Except.ok v →
        BaseLLMClient.parse_json_response loads text = Except.ok v)
    ∧ (∀ e, loads (restrictToJsonSpan (stripCodeFences text))
          = Except.error e →
        (∀ v, loads (repairJsonText (restrictToJsonSpan
              (stripCodeFences text))) = Except.ok v →
            BaseLLMClient.parse_json_response loads text = Except.ok v)
        ∧ (∀ e2, loads (repairJsonText (restrictToJsonSpan
              (stripCodeFences text))) = Except.error e2 →
            BaseLLMClient.parse_json_response loads text
              = Except.error ("Failed to parse JSON response: " ++ e))) := by
  constructor
  · intro v hv
    simp [BaseLLMClient.parse_json_response, hv]
  · intro e he
    constructor
    · intro v hv
      simp [BaseLLMClient.parse_json_response, he, hv]
    · intro e2 he2
      simp [BaseLLMClient.parse_json_response, he, he2]

/-- C7 witness: a fenced array with a trailing comma — the strict parse of
the extracted span fails, the repair pass removes the trailing comma, and
the routine returns the repaired parse. -/
theorem C7_witness :
    BaseLLMClient.parse_json_response
      (fun s => if s = "[1]" then Except.ok 1 else Except.error ("bad"))
      ("```json\n[1, ]\n```") = Except.ok 1 := by
  have h := (C7_parse_json_staging
    (fun s => if s = "[1]" then Except.ok (1 : Nat) else Except.error ("bad"))
    ("```json\n[1, ]\n```")).2 ("bad") (by rfl)
  exact h.1 1 (by rfl)

/-- C8 is false as stated on the code: with the ticketing backend answering
HTTP 404 on every attempt, the caller of `get_issue` does not receive the
NotFound-kind `ValueError` — the tenacity decorator
(`stop_after_attempt(3)`, default `reraise=False`) retries the mapped error
twice and then delivers a `RetryError` wrapping it. -/
theorem C8_error_kinds_counterexample :
    JiraClient.get_issue
        (fun _ => Except.error ⟨404, ("Not Found")⟩) ("PROJ-1")
      ≠ Except.error (CallerError.raw
          (PyError.valueError ("Issue PROJ-1 not found")))
    ∧ JiraClient.get_issue
        (fun _ => Except.error ⟨404, ("Not Found")⟩) ("PROJ-1")
      = Except.error (CallerError.retryError
          (PyError.valueError ("Issue PROJ-1 not found"))) := by
  have hrfl : JiraClient.get_issue
      (fun _ => Except.error ⟨404, ("Not Found")⟩) ("PROJ-1")
      = Except.error (CallerError.retryError
          (PyError.valueError ("Issue PROJ-1 not found"))) := rfl
  refine ⟨?_, hrfl⟩
  rw [hrfl]
  simp

/-- C8 amended: the `get_issue` body classifies exactly as the claim says —
404 to a NotFound-kind `ValueError`, 403 to a `PermissionError`, anything
else to a `RuntimeError` carrying the upstream message — but the caller
receives each of these wrapped in tenacity's `RetryError` (after three
attempts), never the raw error itself. -/
theorem C8_error_kinds_amended
    (backend : Nat → Except JIRAErrorInfo JiraIssueRaw) (issue_id : String)
    (info : JIRAErrorInfo) (h : ∀ n, backend n = Except.error info) :
    (info.status_code = 404 →
      JiraClient.get_issue backend issue_id
        = Except.error (CallerError.retryError
            (PyError.valueError ("Issue " ++ issue_id ++ " not found"))))
    ∧ (info.status_code = 403 →
      JiraClient.get_issue backend issue_id
        = Except.error (CallerError.retryError
            (PyError.permissionError
              ("Access denied to issue " ++ issue_id))))
    ∧ (info.status_code ≠ 404 → info.status_code ≠ 403 →
      JiraClient.get_issue backend issue_id
        = Except.error (CallerError.retryError
            (PyError.runtimeError
              ("Failed to fetch issue: " ++ info.text))))
    ∧ (∀ b2 : Nat → Except JIRAErrorInfo JiraIssueRaw, ∀ e : PyError,
        JiraClient.get_issue b2 issue_id
          ≠ Except.error (CallerError.raw e)) := by
  refine ⟨?_, ?_, ?_, ?_⟩
  · intro h404
    simp [JiraClient.get_issue, tenacityRetry3, JiraClient.get_issue_attempt,
      h, h404]
  · intro h403
    simp [JiraClient.get_issue, tenacityRetry3, JiraClient.get_issue_attempt,
      h, h403]
  · intro hn4 hn3
    simp [JiraClient.get_issue, tenacityRetry3, JiraClient.get_issue_attempt,
      h, hn4, hn3]
  · intro b2 e
    unfold JiraClient.get_issue tenacityRetry3
    rcases h1 : JiraClient.get_issue_attempt (b2 1) issue_id with e1 | v1 <;>
      rcases h2 : JiraClient.get_issue_attempt (b2 2) issue_id with e2 | v2 <;>
      rcases h3 : JiraClient.get_issue_attempt (b2 3) issue_id with e3 | v3 <;>
      simp [h1, h2, h3]

/-- C8 witness: the amended theorem applied to a backend answering 404 on
every attempt. -/
theorem C8_witness :
    JiraClient.get_issue (fun _ => Except.error ⟨404, ("nf")⟩) ("KEY-9")
      = Except.error (CallerError.retryError
          (PyError.valueError ("Issue KEY-9 not found"))) :=
  (C8_error_kinds_amended (fun _ => Except.error ⟨404, ("nf")⟩) ("KEY-9")
    ⟨404, ("nf")⟩ (fun _ => rfl)).1 rfl

/-- The indexed apply loop of STEP 4 equals the consuming specification:
starting at index `idx` it behaves like the spec run on `reviews.drop idx`,
for both the scenario output and the summary list. -/
theorem applyReviewsLoop_eq (reviews : List (Except String ReviewDict))
    (scenarios : List TestScenario) :
    ∀ idx : Nat,
    applyReviewsLoop reviews scenarios idx
      = (applyReviewsSpec scenarios (reviews.drop idx),
         reviewSummariesSpec scenarios (reviews.drop idx)) := by
  induction scenarios with
  | nil =>
    intro idx
    simp [applyReviewsLoop, applyReviewsSpec, reviewSummariesSpec]
  | cons s rest ih =>
    intro idx
    have hget : reviews[idx]? = (reviews.drop idx).head? :=
      (List.head?_drop reviews idx).symm
    have htail : reviews.drop (idx + 1) = (reviews.drop idx).tail :=
      (List.tail_drop reviews idx).symm
    by_cases he : reviewEligible s
    · cases hd : reviews.drop idx with
      | nil =>
        have hnone : reviews[idx]? = none := by rw [hget, hd]; rfl
        have hd1 : reviews.drop (idx + 1) = [] := by rw [htail, hd]; rfl
        simp [applyReviewsLoop, applyReviewsSpec, reviewSummariesSpec, he,
          hnone, ih, hd1]
      | cons o rest2 =>
        have hsome : reviews[idx]? = some o := by rw [hget, hd]; rfl
        have hd1 : reviews.drop (idx + 1) = rest2 := by rw [htail, hd]; rfl
        cases o with
        | ok r =>
          simp [applyReviewsLoop, applyReviewsSpec, reviewSummariesSpec, he,
            hsome, ih, hd1]
        | error err =>
          simp [applyReviewsLoop, applyReviewsSpec, reviewSummariesSpec, he,
            hsome, ih, hd1]
    · simp [applyReviewsLoop, applyReviewsSpec, reviewSummariesSpec, he, ih]

/-- The review apply pass emits exactly one output scenario per input
scenario. -/
theorem applyReviewsSpec_length (scenarios : List TestScenario) :
    ∀ outs, (applyReviewsSpec scenarios outs).length = scenarios.length := by
  induction scenarios with
  | nil => intro outs; simp [applyReviewsSpec]
  | cons s rest ih =>
    intro outs
    by_cases he : reviewEligible s
    · cases outs with
      | nil => simp [applyReviewsSpec, he, ih]
      | cons o rest2 =>
        cases o with
        | ok r => simp [applyReviewsSpec, he, ih]
        | error err => simp [applyReviewsSpec, he, ih]
    · simp [applyReviewsSpec, he, ih]

/-- When one gathered outcome was delivered per eligible scenario, the
summary list has exactly one entry per non-exception outcome. -/
theorem reviewSummariesSpec_length (l1 : List TestScenario) :
    ∀ l2 : List (Except String ReviewDict), l2.length = l1.length →
    ((l1.zip l2).filterMap (fun p =>
        match p.2 with
        | Except.ok r => some (mkReviewSummary p.1 r)
        | Except.error _ => none)).length
      = (l2.filter (fun o =>
          match o with
          | Except.ok _ => true
          | Except.error _ => false)).length := by
  induction l1 with
  | nil =>
    intro l2 hl
    have : l2 = [] := List.length_eq_zero.mp (by simpa using hl)
    simp [this]
  | cons a r1 ih =>
    intro l2 hl
    cases l2 with
    | nil => simp at hl
    | cons o r2 =>
      have hr : r2.length = r1.length := by simpa using hl
      cases o with
      | ok v => simp [ih r2 hr]
      | error err => simp [ih r2 hr]

/-- Pointwise reading of the apply pass: position `i` of the output is the
input scenario itself unless the scenario was eligible and its gathered
outcome (the one at its eligible-rank) is a dict, in which case the
reviewed code is applied.  In particular an exception outcome leaves the
scenario untouched. -/
theorem applyReviewsSpec_get (scenarios : List TestScenario) :
    ∀ (outs : List (Except String ReviewDict)) (i : Nat)
      (hi : i < scenarios.length),
    (applyReviewsSpec scenarios outs).get? i
      = some (if reviewEligible (scenarios.get ⟨i, hi⟩) then
          match outs.get? (((scenarios.take i).filter
              reviewEligible).length) with
          | some (Except.ok r) => applyReviewedCode (scenarios.get ⟨i, hi⟩) r
          | _ => scenarios.get ⟨i, hi⟩
        else scenarios.get ⟨i, hi⟩) := by
  induction scenarios with
  | nil => intro outs i hi; simp at hi
  | cons s rest ih =>
    intro outs i hi
    cases i with
    | zero =>
      by_cases he : reviewEligible s
      · cases outs with
        | nil => simp [applyReviewsSpec, he]
        | cons o rest2 =>
          cases o with
          | ok r => simp [applyReviewsSpec, he]
          | error err => simp [applyReviewsSpec, he]
      · simp [applyReviewsSpec, he]
    | succ j =>
      have hj : j < rest.length := by simpa using hi
      by_cases he : reviewEligible s
      · cases outs with
        | nil =>
          have hrec := ih [] j hj
          simpa [applyReviewsSpec, he, List.take_succ_cons, Nat.add_comm]
            using hrec
        | cons o rest2 =>
          have hrec := ih rest2 j hj
          cases o with
          | ok r =>
            simpa [applyReviewsSpec, he, List.take_succ_cons, Nat.add_comm]
              using hrec
          | error err =>
            simpa [applyReviewsSpec, he, List.take_succ_cons, Nat.add_comm]
              using hrec
      · have hrec := ih outs j hj
        simpa [applyReviewsSpec, he, List.take_succ_cons] using hrec

/-- C3: when the gather delivers one outcome per eligible scenario (N
submitted, M of them exceptions), the code-review stage completes with
every scenario processed exactly once: the output has one scenario per
input; the stage equals its consuming specification (whose equations keep a
scenario untouched on an exception outcome and apply `final_code` on a
dict); the summary list is exactly the per-success entries (no entry for an
exception), so it has N−M entries; and pointwise, a scenario whose outcome
was an exception — or which was not eligible — appears unchanged in the
output, no sibling being affected. -/
theorem C3_code_review_fanout (scenarios : List TestScenario)
    (outcomes : List (Except String ReviewDict))
    (h : outcomes.length = (scenarios.filter reviewEligible).length) :
    (codeReviewStage outcomes scenarios).1.length = scenarios.length
    ∧ (codeReviewStage outcomes scenarios).1
        = applyReviewsSpec scenarios outcomes
    ∧ (codeReviewStage outcomes scenarios).2
        = reviewSummariesSpec scenarios outcomes
    ∧ (codeReviewStage outcomes scenarios).2.length
        = (outcomes.filter (fun o =>
            match o with
            | Except.ok _ => true
            | Except.error _ => false)).length
    ∧ ∀ (i : Nat) (hi : i < scenarios.length),
        (codeReviewStage outcomes scenarios).1.get? i
          = some (if reviewEligible (scenarios.get ⟨i, hi⟩) then
              match outcomes.get? (((scenarios.take i).filter
                  reviewEligible).length) with
              | some (Except.ok r) =>
                  applyReviewedCode (scenarios.get ⟨i, hi⟩) r
              | _ => scenarios.get ⟨i, hi⟩
            else scenarios.get ⟨i, hi⟩) := by
  have heq := applyReviewsLoop_eq outcomes scenarios 0
  have hstage : codeReviewStage outcomes scenarios
      = (applyReviewsSpec scenarios outcomes,
         reviewSummariesSpec scenarios outcomes) := by
    simpa [codeReviewStage] using heq
  refine ⟨?_, ?_, ?_, ?_, ?_⟩
  · rw [hstage]
    exact applyReviewsSpec_length scenarios outcomes
  · rw [hstage]
  · rw [hstage]
  · rw [hstage]
    exact reviewSummariesSpec_length (scenarios.filter reviewEligible)
      outcomes h
  · intro i hi
    rw [hstage]
    exact applyReviewsSpec_get scenarios outcomes i hi

/-- C3 witness: three scenarios — two eligible (one review succeeds with a
corrected final code, one raises), one with no code — processed in one
stage: three outputs, one summary entry. -/
theorem C3_witness :
    (codeReviewStage
      [Except.ok ⟨some true, some 8, some [], some [], some [],
         some ("fixed;")⟩,
       Except.error ("boom")]
      [⟨"TS-1", "A", "d", TestScenarioType.POSITIVE, "Medium", [], [],
         "AC-1", [], 5, some ("await a;")⟩,
       ⟨"TS-2", "B", "d", TestScenarioType.NEGATIVE, "Medium", [], [],
         "AC-1", [], 5, some ("await b;")⟩,
       ⟨"TS-3", "C", "d", TestScenarioType.EDGE_CASE, "Medium", [], [],
         "AC-1", [], 5, none⟩]).1.length = 3
    ∧ (codeReviewStage
      [Except.ok ⟨some true, some 8, some [], some [], some [],
         some ("fixed;")⟩,
       Except.error ("boom")]
      [⟨"TS-1", "A", "d", TestScenarioType.POSITIVE, "Medium", [], [],
         "AC-1", [], 5, some ("await a;")⟩,
       ⟨"TS-2", "B", "d", TestScenarioType.NEGATIVE, "Medium", [], [],
         "AC-1", [], 5, some ("await b;")⟩,
       ⟨"TS-3", "C", "d", TestScenarioType.EDGE_CASE, "Medium", [], [],
         "AC-1", [], 5, none⟩]).2.length = 1 := by
  have h := C3_code_review_fanout
    [⟨"TS-1", "A", "d", TestScenarioType.POSITIVE, "Medium", [], [],
       "AC-1", [], 5, some ("await a;")⟩,
     ⟨"TS-2", "B", "d", TestScenarioType.NEGATIVE, "Medium", [], [],
       "AC-1", [], 5, some ("await b;")⟩,
     ⟨"TS-3", "C", "d", TestScenarioType.EDGE_CASE, "Medium", [], [],
       "AC-1", [], 5, none⟩]
    [Except.ok ⟨some true, some 8, some [], some [], some [],
       some ("fixed;")⟩,
     Except.error ("boom")]
    (by decide)
  exact ⟨h.1, h.2.2.2.1⟩

/-- `String.mk` undoes `String.data`. -/
theorem mk_data_eq (s : String) : String.mk s.data = s := by
  cases s
  rfl

/-- Splitting a newline-free character stream yields the single line. -/
theorem splitOnNL_nl_free (cs : List Char) (h : nlChar ∉ cs) :
    splitOnNL cs = [cs] := by
  induction cs with
  | nil => simp [splitOnNL]
  | cons c rest ih =>
    have hc : c ≠ nlChar := by
      intro hc
      exact h (hc ▸ List.mem_cons_self c rest)
    have hr : nlChar ∉ rest := fun hm => h (List.mem_cons_of_mem c hm)
    simp [splitOnNL, hc, ih hr]

/-- Splitting after a newline-free line and a separator peels the line. -/
theorem splitOnNL_append (a rest : List Char) (h : nlChar ∉ a) :
    splitOnNL (a ++ nlChar :: rest) = a :: splitOnNL rest := by
  induction a with
  | nil => simp [splitOnNL]
  | cons c a2 ih =>
    have hc : c ≠ nlChar := by
      intro hc
      exact h (hc ▸ List.mem_cons_self c a2)
    have ha : nlChar ∉ a2 := fun hm => h (List.mem_cons_of_mem c hm)
    have ih2 : splitOnNL (List.append a2 (nlChar :: rest))
        = a2 :: splitOnNL rest := ih ha
    simp only [List.cons_append, splitOnNL, ih2, if_neg hc]

/-- The split undoes the join on newline-free, non-empty line lists. -/
theorem splitOnNL_joinNL (ls : List String) (hne : ls ≠ [])
    (h : ∀ l ∈ ls, nlFree l) :
    splitOnNL (joinNL ls).data = ls.map String.data := by
  induction ls with
  | nil => exact absurd rfl hne
  | cons l rest ih =>
    cases rest with
    | nil =>
      have hl : nlFree l := h l (List.mem_cons_self l [])
      simp [joinNL, splitOnNL_nl_free l.data hl]
    | cons l2 rest2 =>
      have hl : nlFree l := h l (List.mem_cons_self l _)
      have hjoin : joinNL (l :: l2 :: rest2)
          = l ++ "\n" ++ joinNL (l2 :: rest2) := rfl
      have hdata : (joinNL (l :: l2 :: rest2)).data
          = l.data ++ nlChar :: (joinNL (l2 :: rest2)).data := by
        rw [hjoin, data_append_eq, data_append_eq]
        have : ("\n").data = [nlChar] := by decide
        rw [this]
        simp
      rw [hdata, splitOnNL_append l.data _ hl,
        ih (by simp) (fun x hx => h x (List.mem_cons_of_mem l hx))]
      simp

/-- Two lists sharing a prefix but then differing cannot be prefixes of one
another. -/
theorem isPrefixOf_mismatch (p : List Char) (c1 c2 : Char)
    (s1 s2 : List Char) (h : c1 ≠ c2) :
    (p ++ c1 :: s1).isPrefixOf (p ++ c2 :: s2) = false := by
  induction p with
  | nil => simp [List.isPrefixOf, h]
  | cons a p2 ih => simp [List.isPrefixOf, ih]

/-- `takeWhile`/`dropWhile` split an all-true block followed by a
false-headed remainder. -/
theorem takeWhile_dropWhile_append {α : Type} (P : α → Bool)
    (g w : List α) (hg : ∀ x ∈ g, P x = true)
    (hw : ∀ x ∈ w, P x = false) :
    (g ++ w).takeWhile P = g ∧ (g ++ w).dropWhile P = w := by
  induction g with
  | nil =>
    cases w with
    | nil => simp
    | cons h t =>
      have := hw h (List.mem_cons_self h t)
      simp [List.takeWhile, List.dropWhile, this]
  | cons a g2 ih =>
    have ha : P a = true := hg a (List.mem_cons_self a g2)
    have ih2 := ih (fun x hx => hg x (List.mem_cons_of_mem a hx))
    simp [List.takeWhile, List.dropWhile, ha, ih2.1, ih2.2]

/-- `takeWhile` keeps an all-true list whole. -/
theorem takeWhile_all {α : Type} (P : α → Bool) (l : List α)
    (h : ∀ x ∈ l, P x = true) : l.takeWhile P = l := by
  induction l with
  | nil => simp
  | cons a t ih =>
    have ha : P a = true := h a (List.mem_cons_self a t)
    simp [List.takeWhile, ha, ih (fun x hx => h x (List.mem_cons_of_mem a hx))]

/-- Newline-freedom is preserved by concatenation. -/
theorem nlFree_append (a b : String) (ha : nlFree a) (hb : nlFree b) :
    nlFree (a ++ b) := by
  unfold nlFree at ha hb ⊢
  rw [data_append_eq]
  intro hmem
  rcases List.mem_append.mp hmem with hmem | hmem
  · exact ha hmem
  · exact hb hmem

/-- A `Given` line carries the `Given` marker. -/
theorem given_marker_self (st : String) :
    hasMarker ("  Given ") (("  Given " ++ st).data) = true := by
  rw [hasMarker, data_append_eq]
  exact isPrefixOf_append_self _ _

/-- A `When` line carries the `When` marker. -/
theorem when_marker_self (st : String) :
    hasMarker ("  When ") (("  When " ++ st).data) = true := by
  rw [hasMarker, data_append_eq]
  exact isPrefixOf_append_self _ _

/-- A `Then` line carries the `Then` marker. -/
theorem then_marker_self (st : String) :
    hasMarker ("  Then ") (("  Then " ++ st).data) = true := by
  rw [hasMarker, data_append_eq]
  exact isPrefixOf_append_self _ _

/-- A `When` line does not carry the `Given` marker. -/
theorem given_marker_not_when (st : String) :
    hasMarker ("  Given ") (("  When " ++ st).data) = false := by
  rw [hasMarker, data_append_eq]
  show ((([' ', ' ']) ++ 'G' :: ("iven ").data).isPrefixOf
    (([' ', ' ']) ++ 'W' :: (("hen ").data ++ st.data))) = false
  exact isPrefixOf_mismatch _ _ _ _ _ (by decide)

/-- A `Then` line does not carry the `Given` marker. -/
theorem given_marker_not_then (st : String) :
    hasMarker ("  Given ") (("  Then " ++ st).data) = false := by
  rw [hasMarker, data_append_eq]
  show ((([' ', ' ']) ++ 'G' :: ("iven ").data).isPrefixOf
    (([' ', ' ']) ++ 'T' :: (("hen ").data ++ st.data))) = false
  exact isPrefixOf_mismatch _ _ _ _ _ (by decide)

/-- A `Then` line does not carry the `When` marker. -/
theorem when_marker_not_then (st : String) :
    hasMarker ("  When ") (("  Then " ++ st).data) = false := by
  rw [hasMarker, data_append_eq]
  show ((([' ', ' ']) ++ 'W' :: ("hen ").data).isPrefixOf
    (([' ', ' ']) ++ 'T' :: (("hen ").data ++ st.data))) = false
  exact isPrefixOf_mismatch _ _ _ _ _ (by decide)

/-- The step-line segmenter recovers the three ordered step lists from the
rendered `Given`/`When`/`Then` lines. -/
theorem parseStepLines_of_steps (g w t : List String) :
    parseStepLines
      ((g.map (fun st => "  Given " ++ st)
        ++ w.map (fun st => "  When " ++ st)
        ++ t.map (fun st => "  Then " ++ st)).map String.data)
      = (g, w, t) := by
  have hmapG : (g.map (fun st => "  Given " ++ st)).map String.data
      = g.map (fun st => ("  Given " ++ st).data) := by
    rw [List.map_map]
    rfl
  have hmapW : (w.map (fun st => "  When " ++ st)).map String.data
      = w.map (fun st => ("  When " ++ st).data) := by
    rw [List.map_map]
    rfl
  have hmapT : (t.map (fun st => "  Then " ++ st)).map String.data
      = t.map (fun st => ("  Then " ++ st).data) := by
    rw [List.map_map]
    rfl
  have hsplit : ((g.map (fun st => "  Given " ++ st)
        ++ w.map (fun st => "  When " ++ st)
        ++ t.map (fun st => "  Then " ++ st)).map String.data)
      = g.map (fun st => ("  Given " ++ st).data)
        ++ (w.map (fun st => ("  When " ++ st).data)
            ++ t.map (fun st => ("  Then " ++ st).data)) := by
    rw [List.map_append, List.map_append, hmapG, hmapW, hmapT,
      List.append_assoc]
  have hGtrue : ∀ x ∈ g.map (fun st => ("  Given " ++ st).data),
      hasMarker ("  Given ") x = true := by
    intro x hx
    obtain ⟨st, _, rfl⟩ := List.mem_map.mp hx
    exact given_marker_self st
  have hGfalse : ∀ x ∈ w.map (fun st => ("  When " ++ st).data)
        ++ t.map (fun st => ("  Then " ++ st).data),
      hasMarker ("  Given ") x = false := by
    intro x hx
    rcases List.mem_append.mp hx with hx | hx
    · obtain ⟨st, _, rfl⟩ := List.mem_map.mp hx
      exact given_marker_not_when st
    · obtain ⟨st, _, rfl⟩ := List.mem_map.mp hx
      exact given_marker_not_then st
  have hWtrue : ∀ x ∈ w.map (fun st => ("  When " ++ st).data),
      hasMarker ("  When ") x = true := by
    intro x hx
    obtain ⟨st, _, rfl⟩ := List.mem_map.mp hx
    exact when_marker_self st
  have hWfalse : ∀ x ∈ t.map (fun st => ("  Then " ++ st).data),
      hasMarker ("  When ") x = false := by
    intro x hx
    obtain ⟨st, _, rfl⟩ := List.mem_map.mp hx
    exact when_marker_not_then st
  have hTtrue : ∀ x ∈ t.map (fun st => ("  Then " ++ st).data),
      hasMarker ("  Then ") x = true := by
    intro x hx
    obtain ⟨st, _, rfl⟩ := List.mem_map.mp hx
    exact then_marker_self st
  have hpeel1 := takeWhile_dropWhile_append (hasMarker ("  Given "))
    (g.map (fun st => ("  Given " ++ st).data))
    (w.map (fun st => ("  When " ++ st).data)
      ++ t.map (fun st => ("  Then " ++ st).data)) hGtrue hGfalse
  have hpeel2 := takeWhile_dropWhile_append (hasMarker ("  When "))
    (w.map (fun st => ("  When " ++ st).data))
    (t.map (fun st => ("  Then " ++ st).data)) hWtrue hWfalse
  have hpeel3 := takeWhile_all (hasMarker ("  Then "))
    (t.map (fun st => ("  Then " ++ st).data)) hTtrue
  have hstripG : (g.map (fun st => ("  Given " ++ st).data)).map
      (fun l => String.mk (l.drop 8)) = g := by
    rw [List.map_map]
    have : ∀ st ∈ g,
        (fun l => String.mk (List.drop 8 l))
          ((fun st => ("  Given " ++ st).data) st) = st := by
      intro st _
      simp only [data_append_eq]
      have h8 : ("  Given ").data.length = 8 := rfl
      rw [← h8, List.drop_left, mk_data_eq]
    calc g.map ((fun l => String.mk (List.drop 8 l)) ∘
          (fun st => ("  Given " ++ st).data))
        = g.map id := List.map_congr_left this
      _ = g := List.map_id g
  have hstripW : (w.map (fun st => ("  When " ++ st).data)).map
      (fun l => String.mk (l.drop 7)) = w := by
    rw [List.map_map]
    have : ∀ st ∈ w,
        (fun l => String.mk (List.drop 7 l))
          ((fun st => ("  When " ++ st).data) st) = st := by
      intro st _
      simp only [data_append_eq]
      have h7 : ("  When ").data.length = 7 := rfl
      rw [← h7, List.drop_left, mk_data_eq]
    calc w.map ((fun l => String.mk (List.drop 7 l)) ∘
          (fun st => ("  When " ++ st).data))
        = w.map id := List.map_congr_left this
      _ = w := List.map_id w
  have hstripT : (t.map (fun st => ("  Then " ++ st).data)).map
      (fun l => String.mk (l.drop 7)) = t := by
    rw [List.map_map]
    have : ∀ st ∈ t,
        (fun l => String.mk (List.drop 7 l))
          ((fun st => ("  Then " ++ st).data) st) = st := by
      intro st _
      simp only [data_append_eq]
      have h7 : ("  Then ").data.length = 7 := rfl
      rw [← h7, List.drop_left, mk_data_eq]
    calc t.map ((fun l => String.mk (List.drop 7 l)) ∘
          (fun st => ("  Then " ++ st).data))
        = t.map id := List.map_congr_left this
      _ = t := List.map_id t
  rw [hsplit]
  simp only [parseStepLines]
  rw [hpeel1.1, hpeel1.2, hpeel2.1, hpeel2.2, hpeel3,
    hstripG, hstripW, hstripT]

/-- The line list of an examples-free scenario: optional tag line, one
`Scenario:` line, then one line per `given`, `when`, `then` step in list
order. -/
theorem gherkinLines_eq (s : GherkinScenario) (hex : s.examples = none) :
    s.lines = (if s.tags ≠ [] then
        [String.intercalate (" ") (s.tags.map (fun tg => "@" ++ tg))]
      else [])
      ++ ["Scenario: " ++ s.title]
      ++ s.given.map (fun st => "  Given " ++ st)
      ++ s.when.map (fun st => "  When " ++ st)
      ++ s.thenSteps.map (fun st => "  Then " ++ st) := by
  simp [GherkinScenario.lines, hex]

/-- A scenario always renders at least its `Scenario:` line. -/
theorem gherkinLines_ne_nil (s : GherkinScenario) (hex : s.examples = none) :
    s.lines ≠ [] := by
  rw [gherkinLines_eq s hex]
  by_cases h : s.tags = []
  · simp [h]
  · simp [h]

/-- Newline-freedom of every rendered line, from newline-freedom of the
pieces. -/
theorem gherkinLines_nlFree (s : GherkinScenario) (hex : s.examples = none)
    (htitle : nlFree s.title)
    (hg : ∀ st ∈ s.given, nlFree st) (hw : ∀ st ∈ s.when, nlFree st)
    (ht : ∀ st ∈ s.thenSteps, nlFree st)
    (htag : s.tags ≠ [] → nlFree (String.intercalate (" ")
      (s.tags.map (fun tg => "@" ++ tg)))) :
    ∀ l ∈ s.lines, nlFree l := by
  intro l hl
  rw [gherkinLines_eq s hex] at hl
  simp only [List.append_assoc, List.mem_append] at hl
  rcases hl with hl | hl | hl | hl | hl
  · by_cases h : s.tags = []
    · simp [h] at hl
    · simp only [if_pos h, List.mem_singleton] at hl
      rw [hl]
      exact htag h
  · rw [List.mem_singleton.mp hl]
    exact nlFree_append _ _ (by decide) htitle
  · obtain ⟨st, hst, rfl⟩ := List.mem_map.mp hl
    exact nlFree_append _ _ (by decide) (hg st hst)
  · obtain ⟨st, hst, rfl⟩ := List.mem_map.mp hl
    exact nlFree_append _ _ (by decide) (hw st hst)
  · obtain ⟨st, hst, rfl⟩ := List.mem_map.mp hl
    exact nlFree_append _ _ (by decide) (ht st hst)

/-- The rendered text splits back into exactly the rendered line list. -/
theorem gherkin_split (s : GherkinScenario) (hex : s.examples = none)
    (htitle : nlFree s.title)
    (hg : ∀ st ∈ s.given, nlFree st) (hw : ∀ st ∈ s.when, nlFree st)
    (ht : ∀ st ∈ s.thenSteps, nlFree st)
    (htag : s.tags ≠ [] → nlFree (String.intercalate (" ")
      (s.tags.map (fun tg => "@" ++ tg)))) :
    splitOnNL (s.to_gherkin_text).data = s.lines.map String.data :=
  splitOnNL_joinNL s.lines (gherkinLines_ne_nil s hex)
    (gherkinLines_nlFree s hex htitle hg hw ht htag)

/-- The conceptual re-parser recovers the ordered step lists from the
rendered text. -/
theorem parseGherkin_recovers (s : GherkinScenario) (hex : s.examples = none)
    (htitle : nlFree s.title)
    (hg : ∀ st ∈ s.given, nlFree st) (hw : ∀ st ∈ s.when, nlFree st)
    (ht : ∀ st ∈ s.thenSteps, nlFree st)
    (htag : s.tags ≠ [] → nlFree (String.intercalate (" ")
      (s.tags.map (fun tg => "@" ++ tg)))) :
    parseGherkinScenarioSteps (!s.tags.isEmpty) s.to_gherkin_text
      = (s.given, s.when, s.thenSteps) := by
  unfold parseGherkinScenarioSteps
  rw [gherkin_split s hex htitle hg hw ht htag, gherkinLines_eq s hex]
  by_cases h : s.tags = []
  · rw [if_neg (show ¬(s.tags ≠ []) from fun hc => hc h)]
    simp only [List.nil_append, List.singleton_append, List.cons_append,
      List.map_cons]
    have hb : (!s.tags.isEmpty) = false := by rw [h]; rfl
    rw [hb]
    show parseStepLines
      (List.map String.data
        (s.given.map (fun st => "  Given " ++ st)
          ++ s.when.map (fun st => "  When " ++ st)
          ++ s.thenSteps.map (fun st => "  Then " ++ st)))
      = (s.given, s.when, s.thenSteps)
    exact parseStepLines_of_steps s.given s.when s.thenSteps
  · rw [if_pos h]
    simp only [List.nil_append, List.singleton_append, List.cons_append,
      List.map_cons]
    have hb : (!s.tags.isEmpty) = true := by
      cases htg : s.tags with
      | nil => exact absurd htg h
      | cons a as => rfl
    rw [hb]
    show parseStepLines
      (List.map String.data
        (s.given.map (fun st => "  Given " ++ st)
          ++ s.when.map (fun st => "  When " ++ st)
          ++ s.thenSteps.map (fun st => "  Then " ++ st)))
      = (s.given, s.when, s.thenSteps)
    exact parseStepLines_of_steps s.given s.when s.thenSteps

/-- C9 is false in full generality: a `given` step containing a newline
renders to the same text as a different scenario with the step split into a
`given` and a `when` — the ordered step lists are not recoverable from the
text without a no-newline assumption. -/
theorem C9_gherkin_counterexample :
    (GherkinScenario.mk ("AC-001") ("T") ["a\n  When b"] [] ["c"] []
        none).to_gherkin_text
      = (GherkinScenario.mk ("AC-001") ("T") ["a"] ["b"] ["c"] []
        none).to_gherkin_text
    ∧ (GherkinScenario.mk ("AC-001") ("T") ["a\n  When b"] [] ["c"] []
        none).given
      ≠ (GherkinScenario.mk ("AC-001") ("T") ["a"] ["b"] ["c"] []
        none).given := by
  constructor
  · rfl
  · decide

/-- C9 amended: for scenarios without an examples block whose title, steps
and rendered tag line are newline-free, the rendered text is exactly the
claimed line sequence — optional tag line, one `Scenario:` line, then one
`Given`/`When`/`Then` line per step in order — and the ordered step lists
are recoverable from the text by an executable re-parser, which makes the
rendering injective on the step lists for fixed title and tags. -/
theorem C9_gherkin_roundtrip_amended (s : GherkinScenario)
    (hex : s.examples = none) (htitle : nlFree s.title)
    (hg : ∀ st ∈ s.given, nlFree st) (hw : ∀ st ∈ s.when, nlFree st)
    (ht : ∀ st ∈ s.thenSteps, nlFree st)
    (htag : s.tags ≠ [] → nlFree (String.intercalate (" ")
      (s.tags.map (fun tg => "@" ++ tg)))) :
    splitOnNL (s.to_gherkin_text).data
      = ((if s.tags ≠ [] then
            [String.intercalate (" ") (s.tags.map (fun tg => "@" ++ tg))]
          else [])
        ++ ["Scenario: " ++ s.title]
        ++ s.given.map (fun st => "  Given " ++ st)
        ++ s.when.map (fun st => "  When " ++ st)
        ++ s.thenSteps.map (fun st => "  Then " ++ st)).map String.data
    ∧ parseGherkinScenarioSteps (!s.tags.isEmpty) s.to_gherkin_text
        = (s.given, s.when, s.thenSteps)
    ∧ ∀ s2 : GherkinScenario, s2.examples = none →
        nlFree s2.title →
        (∀ st ∈ s2.given, nlFree st) → (∀ st ∈ s2.when, nlFree st) →
        (∀ st ∈ s2.thenSteps, nlFree st) →
        s2.tags = s.tags → s2.to_gherkin_text = s.to_gherkin_text →
        s2.given = s.given ∧ s2.when = s.when
          ∧ s2.thenSteps = s.thenSteps := by
  refine ⟨?_, parseGherkin_recovers s hex htitle hg hw ht htag, ?_⟩
  · rw [gherkin_split s hex htitle hg hw ht htag, gherkinLines_eq s hex]
  · intro s2 hex2 htitle2 hg2 hw2 ht2 htags2 htext
    have htag2 : s2.tags ≠ [] → nlFree (String.intercalate (" ")
        (s2.tags.map (fun tg => "@" ++ tg))) := by
      rw [htags2]
      exact htag
    have hp2 := parseGherkin_recovers s2 hex2 htitle2 hg2 hw2 ht2 htag2
    have hp1 := parseGherkin_recovers s hex htitle hg hw ht htag
    rw [htags2, htext, hp1] at hp2
    have hsnd := congrArg Prod.snd hp2
    exact ⟨(congrArg Prod.fst hp2).symm, (congrArg Prod.fst hsnd).symm,
      (congrArg Prod.snd hsnd).symm⟩

/-- C9 witness: the spec's own example scenario round-trips. -/
theorem C9_witness :
    parseGherkinScenarioSteps
      (!(GherkinScenario.mk ("AC-001") ("User logout")
          ["user is logged in"] ["user clicks logout"]
          ["user sees login page"] [] none).tags.isEmpty)
      (GherkinScenario.mk ("AC-001") ("User logout")
          ["user is logged in"] ["user clicks logout"]
          ["user sees login page"] [] none).to_gherkin_text
      = (["user is logged in"], ["user clicks logout"],
         ["user sees login page"]) :=
  (C9_gherkin_roundtrip_amended
    (GherkinScenario.mk ("AC-001") ("User logout")
      ["user is logged in"] ["user clicks logout"]
      ["user sees login page"] [] none)
    rfl (by decide) (by decide) (by decide) (by decide)
    (fun hc => absurd rfl hc)).2.1

/-- C10: a concrete full run in which git push is enabled and configured,
`git_commit_and_push` returns an unsuccessful result, the `gitops_push`
step is marked failed (not skipped), no exception is raised, the remaining
`publish_results` stage still runs, and the overall `success` flag is
`true` — `success=true` does not imply every executed step completed. -/
theorem C10_success_with_failed_step :
    (OrchestratorAgent.run_full_agentic_pipeline
      ⟨Except.ok ⟨"1", "PROJ-7", "S", some (""), "Story", "Open", "PROJ",
          none, none, [], [], none, none, none, []⟩,
       Except.ok ⟨"1", "PROJ-7", "S", some (""), "Story", "Open", "PROJ",
          none, none, [], [], none, none, none, []⟩,
       Except.ok ⟨⟨"PROJ-7", "F", none, [], 0, "gemini"⟩, "Feature: F"⟩,
       Except.ok ⟨"PROJ-7", "suite", [], 0, 0, 0, 0, 0, "gemini"⟩,
       fun _ => Except.error ("unused"),
       Except.ok ⟨[], "generated_tests/PROJ-7"⟩,
       Except.ok ⟨false, none, none, some ("push rejected")⟩,
       Except.ok true,
       Except.ok ⟨true, true, []⟩⟩
      ⟨"PROJ-7", "u", true, true, some ("https://example.invalid/r.git"),
        "gemini"⟩).result.success = true
    ∧ (OrchestratorAgent.run_full_agentic_pipeline
      ⟨Except.ok ⟨"1", "PROJ-7", "S", some (""), "Story", "Open", "PROJ",
          none, none, [], [], none, none, none, []⟩,
       Except.ok ⟨"1", "PROJ-7", "S", some (""), "Story", "Open", "PROJ",
          none, none, [], [], none, none, none, []⟩,
       Except.ok ⟨⟨"PROJ-7", "F", none, [], 0, "gemini"⟩, "Feature: F"⟩,
       Except.ok ⟨"PROJ-7", "suite", [], 0, 0, 0, 0, 0, "gemini"⟩,
       fun _ => Except.error ("unused"),
       Except.ok ⟨[], "generated_tests/PROJ-7"⟩,
       Except.ok ⟨false, none, none, some ("push rejected")⟩,
       Except.ok true,
       Except.ok ⟨true, true, []⟩⟩
      ⟨"PROJ-7", "u", true, true, some ("https://example.invalid/r.git"),
        "gemini"⟩).result.steps.map (fun d => (d.name, d.status))
      = [("fetch_story", "completed"), ("generate_ac", "completed"),
         ("generate_tests", "completed"), ("code_review", "completed"),
         ("gitops_write", "completed"), ("gitops_push", "failed"),
         ("publish_results", "completed")] := by
  constructor
  · rfl
  · rfl

/-- The exception handler on a step list whose last step is the running
one: exactly that step is marked failed, everything before it is kept. -/
theorem failFirstRunning_append_running (pre : List PipelineStep)
    (st : PipelineStep) (e : String) (hst : st.status = "running") :
    failFirstRunning (pre ++ [st]) e = pre ++ [st.fail 0 e] := by
  unfold failFirstRunning
  rw [List.reverse_append]
  simp only [List.reverse_singleton, List.singleton_append,
    failFirstRunningRev, hst, if_pos rfl]
  simp [List.reverse_cons, List.reverse_reverse]

/-- A step after `to_dict` keeps its name. -/
theorem to_dict_name (p : PipelineStep) : p.to_dict.name = p.name := rfl

/-- A step after `to_dict` keeps its status. -/
theorem to_dict_status (p : PipelineStep) : p.to_dict.status = p.status := rfl

/-- If STEP 7 raises, the tail leaves the prior steps plus the running
`publish_results` step; the tail is the only place after STEP 6 that can
raise. -/
theorem pipelineTail_err (env : PipelineEnv) (cfg : OrchestratorConfig)
    (a : Bool) (pn : String) (steps6 : List PipelineStep)
    (r5 : PipelineResult) (e : String)
    (h : (pipelineTail env cfg a pn steps6 r5).err = some e) :
    pipelineTail env cfg a pn steps6 r5
      = ⟨steps6 ++ [(PipelineStep.init ("publish_results")
          ("Publishing to " ++ pn)).start 0], r5, some e⟩ := by
  unfold pipelineTail at h ⊢
  by_cases hp : cfg.auto_publish
  · cases a with
    | true =>
      rcases hpa : env.publishADO with epa | pok
      · simp only [if_pos hp, hpa] at h ⊢
        simp at h
        subst h
        simp
      · simp [if_pos hp, hpa] at h
    | false =>
      rcases hpj : env.publishJira with epj | pr
      · simp only [if_pos hp, hpj] at h ⊢
        simp at h
        subst h
        simp
      · simp [if_pos hp, hpj] at h
  · simp [if_neg hp] at h

/-- Generic consequences of an exception raised while the last created step
is the running one: the run returns (success `false`), the running step is
the failed last snapshot carrying the message, earlier steps keep their
terminal statuses, the step names are a prefix of the stage order, and the
returned result is what is persisted. -/
theorem run_props_of_err (env : PipelineEnv) (cfg : OrchestratorConfig)
    (e : String) (pre : List PipelineStep) (st : PipelineStep)
    (h : (pipelineBody env cfg).err = some e)
    (hsteps : (pipelineBody env cfg).steps = pre ++ [st])
    (hst : st.status = "running")
    (hpre : ∀ p ∈ pre, p.status = "completed" ∨ p.status = "skipped"
      ∨ p.status = "failed")
    (hnames : (pre ++ [st]).map PipelineStep.name
      = canonicalStepNames.take (pre ++ [st]).length) :
    (OrchestratorAgent.run_full_agentic_pipeline env cfg).result.success
        = false
    ∧ (OrchestratorAgent.run_full_agentic_pipeline env cfg).result.steps
        = (failFirstRunning (pipelineBody env cfg).steps e).map
            PipelineStep.to_dict
    ∧ (∃ d, (OrchestratorAgent.run_full_agentic_pipeline
          env cfg).result.steps.getLast? = some d
        ∧ d.status = "failed" ∧ d.error = some e)
    ∧ (∀ d ∈ (OrchestratorAgent.run_full_agentic_pipeline
          env cfg).result.steps.dropLast,
        d.status = "completed" ∨ d.status = "skipped"
          ∨ d.status = "failed")
    ∧ (OrchestratorAgent.run_full_agentic_pipeline
          env cfg).result.steps.map StepDict.name
        = canonicalStepNames.take (OrchestratorAgent.run_full_agentic_pipeline
            env cfg).result.steps.length
    ∧ (OrchestratorAgent.run_full_agentic_pipeline env cfg).savedHistory
        = savePipelineHistory (OrchestratorAgent.run_full_agentic_pipeline
            env cfg).result := by
  have hrunsteps : (OrchestratorAgent.run_full_agentic_pipeline
      env cfg).result.steps
      = (pre ++ [st.fail 0 e]).map PipelineStep.to_dict := by
    simp only [OrchestratorAgent.run_full_agentic_pipeline, h, hsteps]
    rw [failFirstRunning_append_running pre st e hst]
  refine ⟨?_, ?_, ?_, ?_, ?_, ?_⟩
  · simp only [OrchestratorAgent.run_full_agentic_pipeline, h]
    rfl
  · simp only [OrchestratorAgent.run_full_agentic_pipeline, h]
  · refine ⟨(st.fail 0 e).to_dict, ?_, rfl, rfl⟩
    rw [hrunsteps, List.map_append]
    simp only [List.map_cons, List.map_nil]
    exact List.getLast?_concat _
  · intro d hd
    rw [hrunsteps, List.map_append] at hd
    simp only [List.map_cons, List.map_nil] at hd
    rw [List.dropLast_concat] at hd
    obtain ⟨p, hp, rfl⟩ := List.mem_map.mp hd
    simpa [to_dict_status] using hpre p hp
  · rw [hrunsteps, List.map_map]
    have hcomp : (StepDict.name ∘ PipelineStep.to_dict) = PipelineStep.name := by
      funext p
      rfl
    rw [hcomp]
    have hlen : ((pre ++ [st.fail 0 e]).map PipelineStep.to_dict).length
        = (pre ++ [st]).length := by
      simp
    rw [hlen]
    have hname2 : (pre ++ [st.fail 0 e]).map PipelineStep.name
        = (pre ++ [st]).map PipelineStep.name := by
      rw [List.map_append, List.map_append]
      rfl
    rw [hname2, hnames]
  · rfl

/-- C1: whenever some stage of `run_full_agentic_pipeline` raises an
unhandled exception, the function still returns (it is total): the result
has `success = false`; the step that was running is marked failed with the
exception message and is the last step created (no later stage's step is
created or started — the step names remain a prefix of the stage order);
all earlier steps keep the terminal status they had; the result carries
the snapshots of all steps created so far (the handler applied to
`self.steps`); and the returned result is exactly what the `finally` block
persists to history. -/
theorem C1_exception_partial_pipeline (env : PipelineEnv)
    (cfg : OrchestratorConfig) (e : String)
    (h : (pipelineBody env cfg).err = some e) :
    (OrchestratorAgent.run_full_agentic_pipeline env cfg).result.success
        = false
    ∧ (OrchestratorAgent.run_full_agentic_pipeline env cfg).result.steps
        = (failFirstRunning (pipelineBody env cfg).steps e).map
            PipelineStep.to_dict
    ∧ (∃ d, (OrchestratorAgent.run_full_agentic_pipeline
          env cfg).result.steps.getLast? = some d
        ∧ d.status = "failed" ∧ d.error = some e)
    ∧ (∀ d ∈ (OrchestratorAgent.run_full_agentic_pipeline
          env cfg).result.steps.dropLast,
        d.status = "completed" ∨ d.status = "skipped"
          ∨ d.status = "failed")
    ∧ (OrchestratorAgent.run_full_agentic_pipeline
          env cfg).result.steps.map StepDict.name
        = canonicalStepNames.take (OrchestratorAgent.run_full_agentic_pipeline
            env cfg).result.steps.length
    ∧ (OrchestratorAgent.run_full_agentic_pipeline env cfg).savedHistory
        = savePipelineHistory (OrchestratorAgent.run_full_agentic_pipeline
            env cfg).result := by
  rcases hf : (if isADO cfg.issue_id then env.fetchStoryADO
      else env.fetchStoryJira) with ef | story
  · -- STEP 1 raised
    have hsteps : (pipelineBody env cfg).steps
        = [] ++ [(PipelineStep.init ("fetch_story")
            ("Fetching user story from " ++ (if isADO cfg.issue_id
              then ("Azure DevOps") else ("Jira")))).start 0] := by
      simp [pipelineBody, hf]
    exact run_props_of_err env cfg e _ _ h hsteps rfl
      (by intro p hp; simp at hp) rfl
  · rcases hac : env.generateAC with eac | acr
    · -- STEP 2 raised
      have hsteps : (pipelineBody env cfg).steps
          = [((PipelineStep.init ("fetch_story")
              ("Fetching user story from " ++ (if isADO cfg.issue_id
                then ("Azure DevOps") else ("Jira")))).start 0).complete 0
              (some [("key", story.key), ("summary", story.summary),
                ("platform", (if isADO cfg.issue_id
                  then ("Azure DevOps") else ("Jira")))])]
            ++ [(PipelineStep.init ("generate_ac")
              ("Generating acceptance criteria (Gherkin)")).start 0] := by
        simp [pipelineBody, hf, hac]
      refine run_props_of_err env cfg e _ _ h hsteps rfl ?_ rfl
      intro p hp
      simp only [List.mem_singleton] at hp
      subst hp
      exact Or.inl rfl
    · rcases hts : env.generateTests with ets | ts
      · -- STEP 3 raised
        have hsteps : (pipelineBody env cfg).steps
            = [((PipelineStep.init ("fetch_story")
              ("Fetching user story from " ++ (if isADO cfg.issue_id
                then ("Azure DevOps") else ("Jira")))).start 0).complete 0
              (some [("key", story.key), ("summary", story.summary),
                ("platform", (if isADO cfg.issue_id
                  then ("Azure DevOps") else ("Jira")))]),
               ((PipelineStep.init ("generate_ac")
              ("Generating acceptance criteria (Gherkin)")).start 0).complete 0
              (some [("scenarios_count",
                  toString acr.acceptance_criteria.scenarios.length),
                ("feature", acr.acceptance_criteria.feature_name)])]
              ++ [(PipelineStep.init ("generate_tests")
                ("Generating test scenarios + Playwright code")).start 0] := by
          simp [pipelineBody, hf, hac, hts]
        refine run_props_of_err env cfg e _ _ h hsteps rfl ?_ rfl
        intro p hp
        simp only [List.mem_cons, List.mem_singleton,
          List.not_mem_nil, or_false] at hp
        rcases hp with rfl | rfl
        · exact Or.inl rfl
        · exact Or.inl rfl
      · rcases hwf : env.writeTestFiles with ewf | wr
        · -- STEP 5 raised (STEP 4 cannot raise: gather captures)
          have hsteps : (pipelineBody env cfg).steps
              = [((PipelineStep.init ("fetch_story")
              ("Fetching user story from " ++ (if isADO cfg.issue_id
                then ("Azure DevOps") else ("Jira")))).start 0).complete 0
              (some [("key", story.key), ("summary", story.summary),
                ("platform", (if isADO cfg.issue_id
                  then ("Azure DevOps") else ("Jira")))]),
                 ((PipelineStep.init ("generate_ac")
              ("Generating acceptance criteria (Gherkin)")).start 0).complete 0
              (some [("scenarios_count",
                  toString acr.acceptance_criteria.scenarios.length),
                ("feature", acr.acceptance_criteria.feature_name)]),
                 ((PipelineStep.init ("generate_tests")
              ("Generating test scenarios + Playwright code")).start
                0).complete 0
              (some [("total_scenarios", toString ts.total_scenarios),
                ("positive", toString ts.positive_count),
                ("negative", toString ts.negative_count)]),
                 ((PipelineStep.init ("code_review")
              ("AI Code Review (CodeReviewer Agent)")).start 0).complete 0
              (some [("reviews_completed",
                toString (codeReviewStage
                  ((ts.scenarios.filter reviewEligible).map
                    env.reviewOutcome) ts.scenarios).2.length)])]
                ++ [(PipelineStep.init ("gitops_write")
                  ("Writing test files (GitOps Agent)")).start 0] := by
            simp [pipelineBody, hf, hac, hts, hwf]
          refine run_props_of_err env cfg e _ _ h hsteps rfl ?_ rfl
          intro p hp
          simp only [List.mem_cons, List.mem_singleton,
            List.not_mem_nil, or_false] at hp
          rcases hp with rfl | rfl | rfl | rfl
          · exact Or.inl rfl
          · exact Or.inl rfl
          · exact Or.inl rfl
          · exact Or.inl rfl
        · by_cases hgit : (cfg.auto_push_git && cfg.git_repo_url.isSome)
              = true
          · rcases hgp : env.gitCommitAndPush with egp | gr
            · -- STEP 6 raised
              have hsteps : (pipelineBody env cfg).steps
                  = [((PipelineStep.init ("fetch_story")
                ("Fetching user story from " ++ (if isADO cfg.issue_id
                  then ("Azure DevOps") else ("Jira")))).start 0).complete 0
                (some [("key", story.key), ("summary", story.summary),
                  ("platform", (if isADO cfg.issue_id
                    then ("Azure DevOps") else ("Jira")))]),
                     ((PipelineStep.init ("generate_ac")
                ("Generating acceptance criteria (Gherkin)")).start
                  0).complete 0
                (some [("scenarios_count",
                    toString acr.acceptance_criteria.scenarios.length),
                  ("feature", acr.acceptance_criteria.feature_name)]),
                     ((PipelineStep.init ("generate_tests")
                ("Generating test scenarios + Playwright code")).start
                  0).complete 0
                (some [("total_scenarios", toString ts.total_scenarios),
                  ("positive", toString ts.positive_count),
                  ("negative", toString ts.negative_count)]),
                     ((PipelineStep.init ("code_review")
                ("AI Code Review (CodeReviewer Agent)")).start 0).complete 0
                (some [("reviews_completed",
                  toString (codeReviewStage
                    ((ts.scenarios.filter reviewEligible).map
                      env.reviewOutcome) ts.scenarios).2.length)]),
                     ((PipelineStep.init ("gitops_write")
                ("Writing test files (GitOps Agent)")).start 0).complete 0
                (some [("files_created", toString wr.files_created.length),
                  ("directory", wr.directory)])]
                    ++ [(PipelineStep.init ("gitops_push")
                      ("Git commit & push (GitOps Agent)")).start 0] := by
                simp [pipelineBody, hf, hac, hts, hwf, hgit, hgp]
              refine run_props_of_err env cfg e _ _ h hsteps rfl ?_ rfl
              intro p hp
              simp only [List.mem_cons, List.mem_singleton,
                List.not_mem_nil, or_false] at hp
              rcases hp with rfl | rfl | rfl | rfl | rfl
              · exact Or.inl rfl
              · exact Or.inl rfl
              · exact Or.inl rfl
              · exact Or.inl rfl
              · exact Or.inl rfl
            · by_cases hgs : gr.success = true
              · -- STEP 6 completed, exception later in STEP 7
                have hbody2 : pipelineBody env cfg
                    = pipelineTail env cfg (isADO cfg.issue_id)
                      (if isADO cfg.issue_id then ("Azure DevOps") else ("Jira"))
                      [((PipelineStep.init ("fetch_story")
                        ("Fetching user story from " ++ (if isADO cfg.issue_id
                          then ("Azure DevOps") else ("Jira")))).start 0).complete 0
                        (some [("key", story.key), ("summary", story.summary),
                          ("platform", (if isADO cfg.issue_id
                            then ("Azure DevOps") else ("Jira")))]),
                       ((PipelineStep.init ("generate_ac")
                        ("Generating acceptance criteria (Gherkin)")).start 0).complete 0
                        (some [("scenarios_count",
                            toString acr.acceptance_criteria.scenarios.length),
                          ("feature", acr.acceptance_criteria.feature_name)]),
                       ((PipelineStep.init ("generate_tests")
                        ("Generating test scenarios + Playwright code")).start 0).complete 0
                        (some [("total_scenarios", toString ts.total_scenarios),
                          ("positive", toString ts.positive_count),
                          ("negative", toString ts.negative_count)]),
                       ((PipelineStep.init ("code_review")
                        ("AI Code Review (CodeReviewer Agent)")).start 0).complete 0
                        (some [("reviews_completed",
                          toString (codeReviewStage
                            ((ts.scenarios.filter reviewEligible).map
                              env.reviewOutcome) ts.scenarios).2.length)]),
                       ((PipelineStep.init ("gitops_write")
                        ("Writing test files (GitOps Agent)")).start 0).complete 0
                        (some [("files_created", toString wr.files_created.length),
                          ("directory", wr.directory)]),
                       (((PipelineStep.init ("gitops_push")
                        ("Git commit & push (GitOps Agent)")).start 0).complete 0
                        (some [("branch", gr.branch.getD ("")),
                          ("commit", (gr.commit_hash.getD ("")).take 8)]))]
                      ({ success := false, issue_id := cfg.issue_id,
                           user_id := cfg.user_id,
                           llm_provider := cfg.llm_provider,
                           story := some story,
                           acceptance_criteria := some acr.acceptance_criteria,
                           gherkin_text := some acr.gherkin_text,
                           test_suite := some ts,
                           code_reviews := (codeReviewStage
                             ((ts.scenarios.filter reviewEligible).map
                               env.reviewOutcome) ts.scenarios).2,
                           git_result := some (GitResultField.push gr),
                           jira_publish_result := none, steps := [] }) := by
                  simp [pipelineBody, initPipelineResult, hf, hac, hts, hwf,
                    hgit, hgp, hgs]
                have h2 := h
                rw [hbody2] at h2
                have htail := pipelineTail_err env cfg _ _ _ _ e h2
                have hsteps : (pipelineBody env cfg).steps
                    = [((PipelineStep.init ("fetch_story")
                        ("Fetching user story from " ++ (if isADO cfg.issue_id
                          then ("Azure DevOps") else ("Jira")))).start 0).complete 0
                        (some [("key", story.key), ("summary", story.summary),
                          ("platform", (if isADO cfg.issue_id
                            then ("Azure DevOps") else ("Jira")))]),
                       ((PipelineStep.init ("generate_ac")
                        ("Generating acceptance criteria (Gherkin)")).start 0).complete 0
                        (some [("scenarios_count",
                            toString acr.acceptance_criteria.scenarios.length),
                          ("feature", acr.acceptance_criteria.feature_name)]),
                       ((PipelineStep.init ("generate_tests")
                        ("Generating test scenarios + Playwright code")).start 0).complete 0
                        (some [("total_scenarios", toString ts.total_scenarios),
                          ("positive", toString ts.positive_count),
                          ("negative", toString ts.negative_count)]),
                       ((PipelineStep.init ("code_review")
                        ("AI Code Review (CodeReviewer Agent)")).start 0).complete 0
                        (some [("reviews_completed",
                          toString (codeReviewStage
                            ((ts.scenarios.filter reviewEligible).map
                              env.reviewOutcome) ts.scenarios).2.length)]),
                       ((PipelineStep.init ("gitops_write")
                        ("Writing test files (GitOps Agent)")).start 0).complete 0
                        (some [("files_created", toString wr.files_created.length),
                          ("directory", wr.directory)]),
                       (((PipelineStep.init ("gitops_push")
                        ("Git commit & push (GitOps Agent)")).start 0).complete 0
                        (some [("branch", gr.branch.getD ("")),
                          ("commit", (gr.commit_hash.getD ("")).take 8)]))]
                      ++ [(PipelineStep.init ("publish_results")
                        ("Publishing to " ++ (if isADO cfg.issue_id
                          then ("Azure DevOps") else ("Jira")))).start 0] := by
                  rw [hbody2, htail]
                refine run_props_of_err env cfg e _ _ h hsteps rfl ?_ rfl
                intro p hp
                simp only [List.mem_cons, List.mem_singleton,
                  List.not_mem_nil, or_false] at hp
                rcases hp with rfl | rfl | rfl | rfl | rfl | rfl
                · exact Or.inl rfl
                · exact Or.inl rfl
                · exact Or.inl rfl
                · exact Or.inl rfl
                · exact Or.inl rfl
                · exact Or.inl rfl
              · -- STEP 6 marked failed without raising, exception in STEP 7
                have hbody2 : pipelineBody env cfg
                    = pipelineTail env cfg (isADO cfg.issue_id)
                      (if isADO cfg.issue_id then ("Azure DevOps") else ("Jira"))
                      [((PipelineStep.init ("fetch_story")
                        ("Fetching user story from " ++ (if isADO cfg.issue_id
                          then ("Azure DevOps") else ("Jira")))).start 0).complete 0
                        (some [("key", story.key), ("summary", story.summary),
                          ("platform", (if isADO cfg.issue_id
                            then ("Azure DevOps") else ("Jira")))]),
                       ((PipelineStep.init ("generate_ac")
                        ("Generating acceptance criteria (Gherkin)")).start 0).complete 0
                        (some [("scenarios_count",
                            toString acr.acceptance_criteria.scenarios.length),
                          ("feature", acr.acceptance_criteria.feature_name)]),
                       ((PipelineStep.init ("generate_tests")
                        ("Generating test scenarios + Playwright code")).start 0).complete 0
                        (some [("total_scenarios", toString ts.total_scenarios),
                          ("positive", toString ts.positive_count),
                          ("negative", toString ts.negative_count)]),
                       ((PipelineStep.init ("code_review")
                        ("AI Code Review (CodeReviewer Agent)")).start 0).complete 0
                        (some [("reviews_completed",
                          toString (codeReviewStage
                            ((ts.scenarios.filter reviewEligible).map
                              env.reviewOutcome) ts.scenarios).2.length)]),
                       ((PipelineStep.init ("gitops_write")
                        ("Writing test files (GitOps Agent)")).start 0).complete 0
                        (some [("files_created", toString wr.files_created.length),
                          ("directory", wr.directory)]),
                       (((PipelineStep.init ("gitops_push")
                        ("Git commit & push (GitOps Agent)")).start 0).fail 0
                        (gr.error.getD ("Unknown error")))]
                      ({ success := false, issue_id := cfg.issue_id,
                           user_id := cfg.user_id,
                           llm_provider := cfg.llm_provider,
                           story := some story,
                           acceptance_criteria := some acr.acceptance_criteria,
                           gherkin_text := some acr.gherkin_text,
                           test_suite := some ts,
                           code_reviews := (codeReviewStage
                             ((ts.scenarios.filter reviewEligible).map
                               env.reviewOutcome) ts.scenarios).2,
                           git_result := some (GitResultField.push gr),
                           jira_publish_result := none, steps := [] }) := by
                  simp [pipelineBody, initPipelineResult, hf, hac, hts, hwf,
                    hgit, hgp, hgs]
                have h2 := h
                rw [hbody2] at h2
                have htail := pipelineTail_err env cfg _ _ _ _ e h2
                have hsteps : (pipelineBody env cfg).steps
                    = [((PipelineStep.init ("fetch_story")
                        ("Fetching user story from " ++ (if isADO cfg.issue_id
                          then ("Azure DevOps") else ("Jira")))).start 0).complete 0
                        (some [("key", story.key), ("summary", story.summary),
                          ("platform", (if isADO cfg.issue_id
                            then ("Azure DevOps") else ("Jira")))]),
                       ((PipelineStep.init ("generate_ac")
                        ("Generating acceptance criteria (Gherkin)")).start 0).complete 0
                        (some [("scenarios_count",
                            toString acr.acceptance_criteria.scenarios.length),
                          ("feature", acr.acceptance_criteria.feature_name)]),
                       ((PipelineStep.init ("generate_tests")
                        ("Generating test scenarios + Playwright code")).start 0).complete 0
                        (some [("total_scenarios", toString ts.total_scenarios),
                          ("positive", toString ts.positive_count),
                          ("negative", toString ts.negative_count)]),
                       ((PipelineStep.init ("code_review")
                        ("AI Code Review (CodeReviewer Agent)")).start 0).complete 0
                        (some [("reviews_completed",
                          toString (codeReviewStage
                            ((ts.scenarios.filter reviewEligible).map
                              env.reviewOutcome) ts.scenarios).2.length)]),
                       ((PipelineStep.init ("gitops_write")
                        ("Writing test files (GitOps Agent)")).start 0).complete 0
                        (some [("files_created", toString wr.files_created.length),
                          ("directory", wr.directory)]),
                       (((PipelineStep.init ("gitops_push")
                        ("Git commit & push (GitOps Agent)")).start 0).fail 0
                        (gr.error.getD ("Unknown error")))]
                      ++ [(PipelineStep.init ("publish_results")
                        ("Publishing to " ++ (if isADO cfg.issue_id
                          then ("Azure DevOps") else ("Jira")))).start 0] := by
                  rw [hbody2, htail]
                refine run_props_of_err env cfg e _ _ h hsteps rfl ?_ rfl
                intro p hp
                simp only [List.mem_cons, List.mem_singleton,
                  List.not_mem_nil, or_false] at hp
                rcases hp with rfl | rfl | rfl | rfl | rfl | rfl
                · exact Or.inl rfl
                · exact Or.inl rfl
                · exact Or.inl rfl
                · exact Or.inl rfl
                · exact Or.inl rfl
                · exact Or.inr (Or.inr rfl)
          · -- git push skipped, exception in STEP 7
            have hbody2 : pipelineBody env cfg
                = pipelineTail env cfg (isADO cfg.issue_id)
                  (if isADO cfg.issue_id then ("Azure DevOps") else ("Jira"))
                  [((PipelineStep.init ("fetch_story")
                    ("Fetching user story from " ++ (if isADO cfg.issue_id
                      then ("Azure DevOps") else ("Jira")))).start 0).complete 0
                    (some [("key", story.key), ("summary", story.summary),
                      ("platform", (if isADO cfg.issue_id
                        then ("Azure DevOps") else ("Jira")))]),
                   ((PipelineStep.init ("generate_ac")
                    ("Generating acceptance criteria (Gherkin)")).start 0).complete 0
                    (some [("scenarios_count",
                        toString acr.acceptance_criteria.scenarios.length),
                      ("feature", acr.acceptance_criteria.feature_name)]),
                   ((PipelineStep.init ("generate_tests")
                    ("Generating test scenarios + Playwright code")).start 0).complete 0
                    (some [("total_scenarios", toString ts.total_scenarios),
                      ("positive", toString ts.positive_count),
                      ("negative", toString ts.negative_count)]),
                   ((PipelineStep.init ("code_review")
                    ("AI Code Review (CodeReviewer Agent)")).start 0).complete 0
                    (some [("reviews_completed",
                      toString (codeReviewStage
                        ((ts.scenarios.filter reviewEligible).map
                          env.reviewOutcome) ts.scenarios).2.length)]),
                   ((PipelineStep.init ("gitops_write")
                    ("Writing test files (GitOps Agent)")).start 0).complete 0
                    (some [("files_created", toString wr.files_created.length),
                      ("directory", wr.directory)]),
                   ((PipelineStep.init ("gitops_push")
                    ("Git push (skipped)")).skip
                    ("No GIT_REPO_URL configured or auto_push_git=False"))]
                  ({ success := false, issue_id := cfg.issue_id,
                       user_id := cfg.user_id,
                       llm_provider := cfg.llm_provider,
                       story := some story,
                       acceptance_criteria := some acr.acceptance_criteria,
                       gherkin_text := some acr.gherkin_text,
                       test_suite := some ts,
                       code_reviews := (codeReviewStage
                         ((ts.scenarios.filter reviewEligible).map
                           env.reviewOutcome) ts.scenarios).2,
                       git_result := some (GitResultField.write wr),
                       jira_publish_result := none, steps := [] }) := by
              simp [pipelineBody, initPipelineResult, hf, hac, hts, hwf,
                hgit]
            have h2 := h
            rw [hbody2] at h2
            have htail := pipelineTail_err env cfg _ _ _ _ e h2
            have hsteps : (pipelineBody env cfg).steps
                = [((PipelineStep.init ("fetch_story")
                    ("Fetching user story from " ++ (if isADO cfg.issue_id
                      then ("Azure DevOps") else ("Jira")))).start 0).complete 0
                    (some [("key", story.key), ("summary", story.summary),
                      ("platform", (if isADO cfg.issue_id
                        then ("Azure DevOps") else ("Jira")))]),
                   ((PipelineStep.init ("generate_ac")
                    ("Generating acceptance criteria (Gherkin)")).start 0).complete 0
                    (some [("scenarios_count",
                        toString acr.acceptance_criteria.scenarios.length),
                      ("feature", acr.acceptance_criteria.feature_name)]),
                   ((PipelineStep.init ("generate_tests")
                    ("Generating test scenarios + Playwright code")).start 0).complete 0
                    (some [("total_scenarios", toString ts.total_scenarios),
                      ("positive", toString ts.positive_count),
                      ("negative", toString ts.negative_count)]),
                   ((PipelineStep.init ("code_review")
                    ("AI Code Review (CodeReviewer Agent)")).start 0).complete 0
                    (some [("reviews_completed",
                      toString (codeReviewStage
                        ((ts.scenarios.filter reviewEligible).map
                          env.reviewOutcome) ts.scenarios).2.length)]),
                   ((PipelineStep.init ("gitops_write")
                    ("Writing test files (GitOps Agent)")).start 0).complete 0
                    (some [("files_created", toString wr.files_created.length),
                      ("directory", wr.directory)]),
                   ((PipelineStep.init ("gitops_push")
                    ("Git push (skipped)")).skip
                    ("No GIT_REPO_URL configured or auto_push_git=False"))]
                  ++ [(PipelineStep.init ("publish_results")
                    ("Publishing to " ++ (if isADO cfg.issue_id
                      then ("Azure DevOps") else ("Jira")))).start 0] := by
              rw [hbody2, htail]
            refine run_props_of_err env cfg e _ _ h hsteps rfl ?_ rfl
            intro p hp
            simp only [List.mem_cons, List.mem_singleton,
              List.not_mem_nil, or_false] at hp
            rcases hp with rfl | rfl | rfl | rfl | rfl | rfl
            · exact Or.inl rfl
            · exact Or.inl rfl
            · exact Or.inl rfl
            · exact Or.inl rfl
            · exact Or.inl rfl
            · exact Or.inr (Or.inl rfl)

/-- C1 witness: the spec's scenario — the story fetch for "PROJ-1" fails
with a not-found error; the pipeline returns `success = false` and its last
(and only) step snapshot is the failed `fetch_story` step carrying the
message. -/
theorem C1_witness :
    (OrchestratorAgent.run_full_agentic_pipeline
      ⟨Except.error ("Issue PROJ-1 not found"),
       Except.error ("Issue PROJ-1 not found"),
       Except.ok ⟨⟨"PROJ-1", "F", none, [], 0, "gemini"⟩, "Feature: F"⟩,
       Except.ok ⟨"PROJ-1", "suite", [], 0, 0, 0, 0, 0, "gemini"⟩,
       fun _ => Except.error ("unused"),
       Except.ok ⟨[], "d"⟩,
       Except.ok ⟨true, none, none, none⟩,
       Except.ok true,
       Except.ok ⟨true, true, []⟩⟩
      ⟨"PROJ-1", "u", true, true, none, "gemini"⟩).result.success = false
    ∧ (∃ d, (OrchestratorAgent.run_full_agentic_pipeline
      ⟨Except.error ("Issue PROJ-1 not found"),
       Except.error ("Issue PROJ-1 not found"),
       Except.ok ⟨⟨"PROJ-1", "F", none, [], 0, "gemini"⟩, "Feature: F"⟩,
       Except.ok ⟨"PROJ-1", "suite", [], 0, 0, 0, 0, 0, "gemini"⟩,
       fun _ => Except.error ("unused"),
       Except.ok ⟨[], "d"⟩,
       Except.ok ⟨true, none, none, none⟩,
       Except.ok true,
       Except.ok ⟨true, true, []⟩⟩
      ⟨"PROJ-1", "u", true, true, none, "gemini"⟩).result.steps.getLast?
        = some d
      ∧ d.status = "failed" ∧ d.error = some ("Issue PROJ-1 not found")) := by
  have hc := C1_exception_partial_pipeline
    ⟨Except.error ("Issue PROJ-1 not found"),
     Except.error ("Issue PROJ-1 not found"),
     Except.ok ⟨⟨"PROJ-1", "F", none, [], 0, "gemini"⟩, "Feature: F"⟩,
     Except.ok ⟨"PROJ-1", "suite", [], 0, 0, 0, 0, 0, "gemini"⟩,
     fun _ => Except.error ("unused"),
     Except.ok ⟨[], "d"⟩,
     Except.ok ⟨true, none, none, none⟩,
     Except.ok true,
     Except.ok ⟨true, true, []⟩⟩
    ⟨"PROJ-1", "u", true, true, none, "gemini"⟩
    ("Issue PROJ-1 not found") rfl
  exact ⟨hc.1, hc.2.2.1⟩
